import Mathlib

/-!
# Shapes watchface (`src/c/shapes.c`)

A shallow embedding of the watchface's render callback, tick handler,
configuration handler and start-up routine, followed by theorems about them.

Conventions of the embedding:

* C `int` / `int32_t` values are mathematical integers (`Int`); `/` and `%` of C
  are `Int.tdiv` and `Int.tmod` (truncation toward zero).
* Where the configuration value `shape_size` enters (the radii of lines 76-89
  and the vertices of lines 95-98) the machine widths are explicit: `to_int32`
  wraps a product computed in `int`, `to_int16` narrows a coordinate stored in a
  `GPoint`, `to_uint16` and `double_to_uint16` convert a radius to the
  `uint16_t` parameter.  In the guide lines every value is bounded by the
  display diagonal and the lookup tables, and no wrap is modelled there.
* A `double` expression is the exact rational it denotes; `double_to_int` is the
  conversion to an integer type (truncation toward zero).  The two `double`
  expressions of the code (`… / 12.0` and `… - line_width/2.0`) have operands far
  below 2^53, so the rounded quotient truncates to the same integer as the exact
  one.
* Everything that comes from `pebble.h` or `SmallMaths.h` (constants, lookup
  tables, colour constructors) is a field of `Platform`.
* A loop takes a fuel argument: `Run.timeout` is returned when the fuel runs out
  before the loop condition fails.  `Run.fault` is a write past the end of
  `points[12]`, `Run.undefined` a conversion whose result C leaves undefined.
-/

namespace Shapes

/-! ## Platform types -/

/-- Colour value of the SDK (`GColor`, one ARGB byte). -/
structure GColor where
  argb : Nat
deriving DecidableEq, Repr

/-- Display point (`GPoint`). -/
structure GPoint where
  x : Int
  y : Int
deriving DecidableEq, Repr

/-- Display size (`GSize`). -/
structure GSize where
  w : Int
  h : Int
deriving DecidableEq, Repr

/-- Display rectangle (`GRect`). -/
structure GRect where
  origin : GPoint
  size : GSize
deriving DecidableEq, Repr

/-- The fields of `struct tm` that the code reads. -/
structure tm where
  tm_min : Int
  tm_hour : Int
deriving DecidableEq, Repr

/-- What `pebble.h` and `SmallMaths.h` provide to `shapes.c`. -/
structure Platform where
  TRIG_MAX_ANGLE : Int
  TRIG_MAX_RATIO : Int
  sin_lookup : Int → Int
  cos_lookup : Int → Int
  sm_powint : Int → Int → Int
  /-- Value of `sm_sqrt(v)` once stored in an `int`. -/
  sm_sqrt : Int → Int
  grect_center_point : GRect → GPoint
  GColorWhite : GColor
  GColorFromRGBA : Int → Int → Int → Int → GColor
  GColorFromHEX : Int → GColor

/-- Conversion of a `double` (an exact rational here) to an integer type:
truncation toward zero. -/
def double_to_int (q : ℚ) : Int :=
  Int.tdiv q.num q.den

/-- Value of an arithmetic result held in an `int` (32 bits, two's complement):
the representative of `x` modulo 2^32 in `-2^31 .. 2^31 - 1`. -/
def to_int32 (x : Int) : Int :=
  (x + 2147483648) % 4294967296 - 2147483648

/-- Narrowing of an `int` to `int16_t` (a coordinate of `GPoint`): the
representative of `x` modulo 2^16 in `-32768 .. 32767`. -/
def to_int16 (x : Int) : Int :=
  (x + 32768) % 65536 - 32768

/-- Conversion of an `int` argument to a `uint16_t` parameter: reduction modulo
2^16. -/
def to_uint16 (x : Int) : Int :=
  x % 65536

/-- Conversion of a `double` argument to a `uint16_t` parameter: the value
truncated toward zero when that lies in `0 .. 65535`; otherwise C leaves the
result undefined (`none`). -/
def double_to_uint16 (q : ℚ) : Option Int :=
  if 0 ≤ double_to_int q ∧ double_to_int q ≤ 65535 then some (double_to_int q) else none

/-! ## Render callback: time sampling (lines 31-40, 50-51) -/

/-- Lines 31-38: the sampled `(hour, minute)` after the optional exchange. -/
def effective_time (swap_hour_min : Bool) (t : tm) : Int × Int :=
  let minute := t.tm_min
  let hour := t.tm_hour
  if swap_hour_min then
    let temp := hour
    let hour := Int.tdiv minute 5
    let minute := temp * 5
    (hour, minute)
  else
    (hour, minute)

/-- Line 40: `int five_minute = minute / 5;` on the effective minute. -/
def five_minute (swap_hour_min : Bool) (t : tm) : Int :=
  Int.tdiv (effective_time swap_hour_min t).2 5

/-- Line 50: `int32_t hour_angle = TRIG_MAX_ANGLE * (hour % 12) / 12.0;` on the
effective hour. -/
def hour_angle (P : Platform) (swap_hour_min : Bool) (t : tm) : Int :=
  double_to_int
    ((( P.TRIG_MAX_ANGLE * Int.tmod (effective_time swap_hour_min t).1 12 : Int) : ℚ) / 12)

/-- Line 51: `int32_t perpendicular = hour_angle + TRIG_MAX_RATIO / 4;`. -/
def perpendicular (P : Platform) (hour_angle : Int) : Int :=
  hour_angle + Int.tdiv ( P.TRIG_MAX_RATIO) 4

/-! ## Render callback: drawing (lines 42-112) -/

/-- Initialiser of a path (`GPathInfo`): the vertex count and the 12-slot
buffer `points` it refers to; a slot that was never written is `none`.  The path
object made by `gpath_create` is identified with its initialiser. -/
structure GPathInfo where
  num_points : Int
  points : List (Option GPoint)
deriving DecidableEq, Repr

/-- Vertex `i` of a path: the content of slot `i` of its buffer. -/
def GPathInfo.vertex (info : GPathInfo) (i : Nat) : Option GPoint :=
  (info.points.get? i).join

/-- Calls of the graphics API issued by the render callback, in program order.
A `radius` is the value received by the `uint16_t` parameter of the SDK
function, that is the argument after its conversion to `uint16_t`. -/
inductive Call where
  | graphics_context_set_fill_color (color : GColor)
  | graphics_fill_rect (rect : GRect)
  | graphics_context_set_stroke_width (width : Int)
  | graphics_context_set_stroke_color (color : GColor)
  | graphics_context_set_antialiased (enable : Bool)
  | graphics_draw_line (p0 p1 : GPoint)
  | graphics_fill_circle (p : GPoint) (radius : Int)
  | graphics_draw_circle (p : GPoint) (radius : Int)
  | gpath_destroy (path : GPathInfo)
  | gpath_create (init : GPathInfo)
  | gpath_draw_filled (path : GPathInfo)
  | gpath_draw_outline (path : GPathInfo)
deriving DecidableEq, Repr

/-- Outcome of running code that contains a loop and an array write. -/
inductive Run (α : Type) where
  /-- The code ran to its end. -/
  | ok (a : α)
  /-- The fuel ran out inside a loop. -/
  | timeout
  /-- A write outside the bounds of `points[12]`. -/
  | fault
  /-- A conversion whose result C leaves undefined (line 84). -/
  | undefined
deriving DecidableEq, Repr

/-- The record `ClaySettings` (lines 17-24). -/
structure ClaySettings where
  BackgroundColor : GColor
  LineColor : GColor
  SwapHourMin : Bool
  OutlineShape : Bool
  LineSpacing : Int
  ShapeSize : Int
deriving DecidableEq, Repr

/-- The file-scope variables of `shapes.c` (lines 9-15, 26), the persistent
storage of the app (key to stored record) and the number of
`layer_mark_dirty(bitmap_layer)` calls made so far. -/
structure AppState where
  background_color : GColor
  line_color : GColor
  swap_hour_min : Bool
  outline_shape : Bool
  line_spacing : Int
  shape_size : Int
  filling_path : Option GPathInfo
  settings : ClaySettings
  persist : Nat → Option ClaySettings
  mark_dirty_calls : Nat

/-- Line 44: `int diameter = sm_sqrt(sm_powint(bounds.size.w,2) + sm_powint(bounds.size.h,2));`. -/
def diameter (P : Platform) (bounds : GRect) : Int :=
  P.sm_sqrt (P.sm_powint bounds.size.w 2 + P.sm_powint bounds.size.h 2)

/-- Lines 58-70: the body of the guide-line loop for one value of `shift`. -/
def guide_line (P : Platform) (center : GPoint) (hour_angle perpendicular diameter shift : Int) :
    Call :=
  let shiftX := Int.tdiv (P.sin_lookup perpendicular * shift) ( P.TRIG_MAX_RATIO)
  let shiftY := Int.tdiv (-(P.cos_lookup perpendicular) * shift) ( P.TRIG_MAX_RATIO)
  let diameterPoint1 := GPoint.mk
    (center.x + Int.tdiv (P.sin_lookup hour_angle * Int.tdiv diameter 2) ( P.TRIG_MAX_RATIO) + shiftX)
    (center.y - Int.tdiv (P.cos_lookup hour_angle * Int.tdiv diameter 2) ( P.TRIG_MAX_RATIO) + shiftY)
  let diameterPoint2 := GPoint.mk
    (center.x - Int.tdiv (P.sin_lookup hour_angle * Int.tdiv diameter 2) ( P.TRIG_MAX_RATIO) + shiftX)
    (center.y + Int.tdiv (P.cos_lookup hour_angle * Int.tdiv diameter 2) ( P.TRIG_MAX_RATIO) + shiftY)
  Call.graphics_draw_line diameterPoint1 diameterPoint2

/-- Lines 57-71: `for (...; shift < diameter / 2; shift += line_spacing)` from
the current value of `shift`; the result is the list of calls it issues. -/
def guide_loop (P : Platform) (center : GPoint)
    (hour_angle perpendicular diameter line_spacing : Int) : Nat → Int → Run (List Call)
  | 0, _ => Run.timeout
  | fuel + 1, shift =>
    if shift < Int.tdiv diameter 2 then
      match guide_loop P center hour_angle perpendicular diameter line_spacing fuel
          (shift + line_spacing) with
      | Run.ok calls =>
        Run.ok (guide_line P center hour_angle perpendicular diameter shift :: calls)
      | Run.timeout => Run.timeout
      | Run.fault => Run.fault
      | Run.undefined => Run.undefined
    else
      Run.ok []

/-- Lines 57-71 with the initialisation `int shift = -diameter / 2`. -/
def guide_lines (P : Platform) (fuel : Nat) (center : GPoint)
    (hour_angle perpendicular diameter line_spacing : Int) : Run (List Call) :=
  guide_loop P center hour_angle perpendicular diameter line_spacing fuel (Int.tdiv (-diameter) 2)

/-- The four branches of the conditional chain of lines 73-112. -/
inductive ShapeBranch where
  | no_draw
  | circle
  | ring
  | polygon
deriving DecidableEq, Repr

/-- The conditions of lines 73, 75, 80 and 91. -/
def shape_branch (five_minute : Int) : ShapeBranch :=
  if five_minute = 0 then ShapeBranch.no_draw
  else if five_minute = 1 then ShapeBranch.circle
  else if five_minute = 2 then ShapeBranch.ring
  else ShapeBranch.polygon

/-- Lines 95-98: the point stored in `points[i]`.  The product with
`shape_size` is computed in `int` and each coordinate is narrowed to the
`int16_t` field of `GPoint` (a 32-bit wrap of the sum would not change the
narrowed value). -/
def polygon_point (P : Platform) (center : GPoint) (shape_size angle_per_corner i : Int) : GPoint :=
  GPoint.mk
    (to_int16 (center.x +
      Int.tdiv (to_int32 (P.sin_lookup (angle_per_corner * i) * shape_size)) ( P.TRIG_MAX_RATIO)))
    (to_int16 (center.y -
      Int.tdiv (to_int32 (P.cos_lookup (angle_per_corner * i) * shape_size)) ( P.TRIG_MAX_RATIO)))

/-- Lines 94-99: `for (int i = 0; i < five_minute; i++) points[i] = ...` from the
current value of `i`, on the 12-slot buffer `points`. -/
def polygon_loop (P : Platform) (center : GPoint) (shape_size angle_per_corner five_minute : Int) :
    Nat → Int → List (Option GPoint) → Run (List (Option GPoint))
  | 0, _, _ => Run.timeout
  | fuel + 1, i, points =>
    if i < five_minute then
      if 0 ≤ i ∧ i < 12 then
        polygon_loop P center shape_size angle_per_corner five_minute fuel (i + 1)
          (points.set i.toNat (some (polygon_point P center shape_size angle_per_corner i)))
      else
        Run.fault
    else
      Run.ok points

/-- Lines 76-79: the branch `five_minute == 1`. -/
def circle_calls (st : AppState) (center : GPoint) : List Call :=
  Call.graphics_fill_circle center (to_uint16 st.shape_size) ::
    (if st.outline_shape then [Call.graphics_draw_circle center (to_uint16 st.shape_size)]
     else [])

/-- Lines 81-90: the branch `five_minute == 2`; `none` when the `double` radius
of line 84 has no defined conversion to `uint16_t`. -/
def ring_calls (st : AppState) (center : GPoint) : Option (List Call) :=
  let line_width : Int := 15
  match double_to_uint16 ((st.shape_size : ℚ) - (line_width : ℚ) / 2) with
  | some radius =>
    some
      ([Call.graphics_context_set_stroke_width line_width,
        Call.graphics_context_set_stroke_color st.background_color,
        Call.graphics_draw_circle center radius] ++
       (if st.outline_shape then
         [Call.graphics_context_set_stroke_width 1,
          Call.graphics_context_set_stroke_color st.line_color,
          Call.graphics_draw_circle center (to_uint16 (st.shape_size - line_width)),
          Call.graphics_draw_circle center (to_uint16 st.shape_size)]
       else []))
  | none => none

/-- Lines 92-111: the branch of the final `else`. -/
def polygon_branch (P : Platform) (fuel : Nat) (st : AppState) (center : GPoint)
    (five_minute : Int) : Run (AppState × List Call) :=
  let angle_per_corner := Int.tdiv ( P.TRIG_MAX_ANGLE) five_minute
  match polygon_loop P center st.shape_size angle_per_corner five_minute fuel 0
      (List.replicate 12 none) with
  | Run.ok points =>
    let pathInfo : GPathInfo := { num_points := five_minute, points := points }
    Run.ok
      ({ st with filling_path := some pathInfo },
       (match st.filling_path with
        | some old => [Call.gpath_destroy old]
        | none => []) ++
       [Call.gpath_create pathInfo, Call.gpath_draw_filled pathInfo] ++
       (if st.outline_shape then [Call.gpath_draw_outline pathInfo] else []))
  | Run.timeout => Run.timeout
  | Run.fault => Run.fault
  | Run.undefined => Run.undefined

/-- Lines 73-112: the minute shape for the bucket `five_minute`. -/
def minute_shape (P : Platform) (fuel : Nat) (st : AppState) (center : GPoint)
    (five_minute : Int) : Run (AppState × List Call) :=
  match shape_branch five_minute with
  | ShapeBranch.no_draw => Run.ok (st, [])
  | ShapeBranch.circle => Run.ok (st, circle_calls st center)
  | ShapeBranch.ring =>
    match ring_calls st center with
    | some calls => Run.ok (st, calls)
    | none => Run.undefined
  | ShapeBranch.polygon => polygon_branch P fuel st center five_minute

/-- Lines 28-113: the render callback, run on the layer bounds `bounds` at the
local time `t`. -/
def bitmap_layer_update_proc (P : Platform) (fuel : Nat) (st : AppState) (bounds : GRect)
    (t : tm) : Run (AppState × List Call) :=
  let five_minute := five_minute st.swap_hour_min t
  let center := P.grect_center_point bounds
  let diameter := diameter P bounds
  let hour_angle := hour_angle P st.swap_hour_min t
  let perpendicular := perpendicular P hour_angle
  match guide_lines P fuel center hour_angle perpendicular diameter st.line_spacing with
  | Run.ok lines =>
    match minute_shape P fuel st center five_minute with
    | Run.ok (st1, shape) =>
      Run.ok (st1,
        [Call.graphics_context_set_fill_color st.background_color,
         Call.graphics_fill_rect bounds,
         Call.graphics_context_set_stroke_width 1,
         Call.graphics_context_set_stroke_color st.line_color,
         Call.graphics_context_set_antialiased true] ++ lines ++ shape)
    | Run.timeout => Run.timeout
    | Run.fault => Run.fault
    | Run.undefined => Run.undefined
  | Run.timeout => Run.timeout
  | Run.fault => Run.fault
  | Run.undefined => Run.undefined

/-! ## Tick handler, configuration handler, start-up (lines 131-207) -/

/-- Line 4: `#define SETTINGS_KEY 1`. -/
def SETTINGS_KEY : Nat := 1

/-- Keys of the configuration message: the six `MESSAGE_KEY_...` constants the
handler looks up, and any other key. -/
inductive MessageKey where
  | background_color
  | line_color
  | swap_hour_min
  | outline_shape
  | line_spacing
  | shape_size
  | other (k : Nat)
deriving DecidableEq, Repr

/-- The two views of a tuple's value that the handler reads
(`value->int32` and `value->uint8`). -/
structure TupleValue where
  int32 : Int
  uint8 : Nat
deriving DecidableEq, Repr

/-- One entry of an inbound message (`Tuple`). -/
structure Tuple where
  key : MessageKey
  value : TupleValue
deriving DecidableEq, Repr

/-- An inbound message (`DictionaryIterator`): its tuples in order. -/
abbrev DictionaryIterator := List Tuple

/-- The SDK lookup `dict_find(iter, key)`: the first tuple with that key, or `NULL`. -/
def dict_find (iter : DictionaryIterator) (key : MessageKey) : Option Tuple :=
  iter.find? (fun t => decide (t.key = key))

/-- The SDK call `layer_mark_dirty(bitmap_layer)`. -/
def layer_mark_dirty (st : AppState) : AppState :=
  { st with mark_dirty_calls := st.mark_dirty_calls + 1 }

/-- The SDK call `persist_write_data(key, &settings, sizeof(settings))`: the
record is stored under `key`. -/
def persist_write_data (st : AppState) (key : Nat) (data : ClaySettings) : AppState :=
  { st with persist := fun k => if k = key then some data else st.persist k }

/-- The SDK call `persist_read_data(key, &buffer, sizeof(buffer))`: the stored
record when there is one, otherwise the buffer is left as it was. -/
def persist_read_data (persist : Nat → Option ClaySettings) (key : Nat)
    (buffer : ClaySettings) : ClaySettings :=
  match persist key with
  | some data => data
  | none => buffer

/-- Lines 131-137. -/
def tick_handler (st : AppState) (tick_time : tm) : AppState :=
  let minute := tick_time.tm_min
  let hour := tick_time.tm_hour
  if Int.tmod (minute + hour * 60) 5 = 0 then layer_mark_dirty st else st

/-- Lines 139-176. -/
def prv_inbox_received_handler (P : Platform) (st : AppState) (iter : DictionaryIterator) :
    AppState :=
  let st := match dict_find iter MessageKey.background_color with
    | some bg_color_t => { st with background_color := P.GColorFromHEX bg_color_t.value.int32 }
    | none => st
  let st := match dict_find iter MessageKey.line_color with
    | some line_color_t => { st with line_color := P.GColorFromHEX line_color_t.value.int32 }
    | none => st
  let st := match dict_find iter MessageKey.swap_hour_min with
    | some swap_hour_min_t => { st with swap_hour_min := decide (swap_hour_min_t.value.uint8 ≠ 0) }
    | none => st
  let st := match dict_find iter MessageKey.outline_shape with
    | some outline_shape_t => { st with outline_shape := decide (outline_shape_t.value.uint8 ≠ 0) }
    | none => st
  let st := match dict_find iter MessageKey.line_spacing with
    | some line_spacing_t => { st with line_spacing := line_spacing_t.value.int32 }
    | none => st
  let st := match dict_find iter MessageKey.shape_size with
    | some shape_size_t => { st with shape_size := shape_size_t.value.int32 }
    | none => st
  let st := layer_mark_dirty st
  let st := { st with settings :=
    { BackgroundColor := st.background_color
      LineColor := st.line_color
      SwapHourMin := st.swap_hour_min
      OutlineShape := st.outline_shape
      LineSpacing := st.line_spacing
      ShapeSize := st.shape_size } }
  persist_write_data st SETTINGS_KEY st.settings

/-- Lines 178-194 of `prv_init`: defaults, stored record, copy into the render
variables.  The registrations that follow (lines 196-206) change none of the
modelled state. -/
def prv_init (P : Platform) (st : AppState) : AppState :=
  let settings : ClaySettings :=
    { BackgroundColor := P.GColorWhite
      LineColor := P.GColorFromRGBA 205 34 49 255
      SwapHourMin := false
      OutlineShape := false
      LineSpacing := 5
      ShapeSize := 30 }
  let settings := persist_read_data st.persist SETTINGS_KEY settings
  { st with
    settings := settings
    background_color := settings.BackgroundColor
    line_color := settings.LineColor
    swap_hour_min := settings.SwapHourMin
    outline_shape := settings.OutlineShape
    line_spacing := settings.LineSpacing
    shape_size := settings.ShapeSize }

/-- The six render variables of a state, as a record. -/
def render_state (st : AppState) : ClaySettings :=
  { BackgroundColor := st.background_color
    LineColor := st.line_color
    SwapHourMin := st.swap_hour_min
    OutlineShape := st.outline_shape
    LineSpacing := st.line_spacing
    ShapeSize := st.shape_size }

/-! ## A concrete platform -/

/-- The SDK macro `GColorFromRGBA`: the two high bits of each channel. -/
def sdk_GColorFromRGBA (red green blue alpha : Int) : GColor :=
  GColor.mk (((alpha % 256) / 64 * 64 + (red % 256) / 64 * 16 + (green % 256) / 64 * 4 +
    (blue % 256) / 64).toNat)

/-- Coarse piecewise-linear stand-in for the sine table of the SDK. -/
def sdk_sin_lookup (angle : Int) : Int :=
  let a := angle % 65536
  if a < 16384 then min (4 * a) 65535
  else if a < 49152 then max (min (4 * (32768 - a)) 65535) (-65535)
  else max (4 * (a - 65536)) (-65535)

/-- The constants and macros of the Pebble SDK, with stand-ins for the lookup
tables and for `SmallMaths.h`. -/
def sdk : Platform :=
  { TRIG_MAX_ANGLE := 0x10000
    TRIG_MAX_RATIO := 0xffff
    sin_lookup := sdk_sin_lookup
    cos_lookup := fun angle => sdk_sin_lookup (angle + 16384)
    sm_powint := fun b e => b ^ e.toNat
    sm_sqrt := fun v => Int.ofNat (Nat.sqrt v.toNat)
    grect_center_point := fun r => GPoint.mk (r.origin.x + r.size.w / 2) (r.origin.y + r.size.h / 2)
    GColorWhite := GColor.mk 0xff
    GColorFromRGBA := sdk_GColorFromRGBA
    GColorFromHEX := fun v => sdk_GColorFromRGBA (v / 65536 % 256) (v / 256 % 256) (v % 256) 255 }

/-- A state right after process start: variables zeroed, no stored record. -/
def fresh_state : AppState :=
  { background_color := GColor.mk 0
    line_color := GColor.mk 0
    swap_hour_min := false
    outline_shape := false
    line_spacing := 0
    shape_size := 0
    filling_path := none
    settings :=
      { BackgroundColor := GColor.mk 0
        LineColor := GColor.mk 0
        SwapHourMin := false
        OutlineShape := false
        LineSpacing := 0
        ShapeSize := 0 }
    persist := fun _ => none
    mark_dirty_calls := 0 }

/-! ## Theorems -/

/-- Truncation of an exact quotient of a nonnegative integer is integer division. -/
theorem double_to_int_div_nonneg (a : Int) (d : Nat) (ha : 0 ≤ a) :
    double_to_int ((a : ℚ) / (d : ℚ)) = a / (d : Int) := by
  unfold double_to_int
  have hq : (0 : ℚ) ≤ (a : ℚ) / (d : ℚ) := by positivity
  have hn : 0 ≤ ((a : ℚ) / (d : ℚ)).num := Rat.num_nonneg.mpr hq
  rw [Int.tdiv_eq_ediv hn (by exact_mod_cast Nat.zero_le _)]
  rw [← Rat.floor_def, Rat.floor_intCast_div_natCast]

/-- Truncation of an exact quotient is the truncating division of C. -/
theorem double_to_int_div (a : Int) (d : Nat) :
    double_to_int ((a : ℚ) / (d : ℚ)) = Int.tdiv a (d : Int) := by
  rcases le_total 0 a with ha | ha
  · rw [double_to_int_div_nonneg a d ha, Int.tdiv_eq_ediv ha (by exact_mod_cast Nat.zero_le _)]
  · have hna : 0 ≤ -a := by omega
    have h := double_to_int_div_nonneg (-a) d hna
    have e : (a : ℚ) / (d : ℚ) = -(((-a : Int) : ℚ) / (d : ℚ)) := by push_cast; ring
    rw [e]
    unfold double_to_int at h ⊢
    rw [Rat.num_neg_eq_neg_num, Rat.den_neg_eq_den, Int.neg_tdiv, h,
      ← Int.tdiv_eq_ediv hna (by exact_mod_cast Nat.zero_le _), Int.neg_tdiv, neg_neg]

/-- C1: with `swap_hour_min = false`, for every hour in 0..23 and minute in 0..59
the render callback computes `hour_angle = TRIG_MAX_ANGLE * (hour mod 12) / 12`
(the truncating integer division of C, which is the floor division when
`TRIG_MAX_ANGLE` is not negative) and `five_minute = minute / 5`. -/
theorem clock_angle_base (P : Platform) (t : tm)
    (hh : 0 ≤ t.tm_hour ∧ t.tm_hour ≤ 23) (hm : 0 ≤ t.tm_min ∧ t.tm_min ≤ 59) :
    hour_angle P false t = Int.tdiv ( P.TRIG_MAX_ANGLE * (t.tm_hour % 12)) 12 ∧
      (0 ≤ P.TRIG_MAX_ANGLE → hour_angle P false t = P.TRIG_MAX_ANGLE * (t.tm_hour % 12) / 12) ∧
      five_minute false t = t.tm_min / 5 := by
  have h1 : hour_angle P false t = Int.tdiv ( P.TRIG_MAX_ANGLE * (t.tm_hour % 12)) 12 := by
    have h := double_to_int_div ( P.TRIG_MAX_ANGLE * Int.tmod t.tm_hour 12) 12
    simp only [hour_angle, effective_time, Bool.false_eq_true, ↓reduceIte]
    rw [Int.tmod_eq_emod hh.1 (by decide)] at h ⊢
    exact_mod_cast h
  refine ⟨h1, ?_, ?_⟩
  · intro hT
    rw [h1]
    exact Int.tdiv_eq_ediv (Int.mul_nonneg hT (Int.emod_nonneg _ (by decide))) (by decide)
  · simp only [five_minute, effective_time, Bool.false_eq_true, ↓reduceIte]
    exact Int.tdiv_eq_ediv hm.1 (by decide)

/-- C1 at 03:47 on the SDK constants. -/
theorem clock_angle_base_witness :
    (0 ≤ (3 : Int) ∧ (3 : Int) ≤ 23) ∧ (0 ≤ (47 : Int) ∧ (47 : Int) ≤ 59) ∧
      hour_angle sdk false (tm.mk 47 3) = Int.tdiv (sdk.TRIG_MAX_ANGLE * ((3 : Int) % 12)) 12 ∧
      (0 ≤ sdk.TRIG_MAX_ANGLE →
        hour_angle sdk false (tm.mk 47 3) = sdk.TRIG_MAX_ANGLE * ((3 : Int) % 12) / 12) ∧
      five_minute false (tm.mk 47 3) = (47 : Int) / 5 :=
  ⟨by decide, by decide, clock_angle_base sdk (tm.mk 47 3) (by decide) (by decide)⟩

/-- C2: with `swap_hour_min = true`, for every hour in 0..23 and minute in 0..59
the sampled values are exchanged first (hour := minute / 5, minute := hour * 5)
and the base formulas are applied to the exchanged values, so that
`hour_angle = TRIG_MAX_ANGLE * ((minute / 5) mod 12) / 12` (truncating division,
the floor division when `TRIG_MAX_ANGLE` is not negative) and
`five_minute = (hour * 5) / 5`; at 03:47 this gives
`hour_angle = TRIG_MAX_ANGLE * 9 / 12` and `five_minute = 3`. -/
theorem clock_angle_swap (P : Platform) (t : tm)
    (hh : 0 ≤ t.tm_hour ∧ t.tm_hour ≤ 23) (hm : 0 ≤ t.tm_min ∧ t.tm_min ≤ 59) :
    (effective_time true t = (t.tm_min / 5, t.tm_hour * 5) ∧
      hour_angle P true t = Int.tdiv ( P.TRIG_MAX_ANGLE * ((t.tm_min / 5) % 12)) 12 ∧
      (0 ≤ P.TRIG_MAX_ANGLE →
        hour_angle P true t = P.TRIG_MAX_ANGLE * ((t.tm_min / 5) % 12) / 12) ∧
      five_minute true t = (t.tm_hour * 5) / 5) ∧
    (hour_angle P true (tm.mk 47 3) = Int.tdiv ( P.TRIG_MAX_ANGLE * 9) 12 ∧
      five_minute true (tm.mk 47 3) = 3) := by
  have hd : Int.tdiv t.tm_min 5 = t.tm_min / 5 := Int.tdiv_eq_ediv hm.1 (by decide)
  have key : ∀ m : Int, 0 ≤ m → ∀ h : Int,
      hour_angle P true (tm.mk m h) = Int.tdiv ( P.TRIG_MAX_ANGLE * ((m / 5) % 12)) 12 := by
    intro m hm0 h
    have h1 := double_to_int_div ( P.TRIG_MAX_ANGLE * Int.tmod (Int.tdiv m 5) 12) 12
    have hq : 0 ≤ m / 5 := Int.ediv_nonneg hm0 (by decide)
    simp only [hour_angle, effective_time, ↓reduceIte]
    rw [Int.tdiv_eq_ediv hm0 (by decide), Int.tmod_eq_emod hq (by decide)] at h1 ⊢
    exact_mod_cast h1
  refine ⟨⟨?_, ?_, ?_, ?_⟩, ?_, ?_⟩
  · simp only [effective_time, ↓reduceIte, hd]
  · exact key t.tm_min hm.1 t.tm_hour
  · intro hT
    rw [key t.tm_min hm.1 t.tm_hour]
    exact Int.tdiv_eq_ediv (Int.mul_nonneg hT (Int.emod_nonneg _ (by decide))) (by decide)
  · simp only [five_minute, effective_time, ↓reduceIte]
    exact Int.tdiv_eq_ediv (by omega) (by decide)
  · have := key 47 (by decide) 3
    simpa using this
  · decide

/-- C2 at 03:47 on the SDK constants. -/
theorem clock_angle_swap_witness :
    (0 ≤ (3 : Int) ∧ (3 : Int) ≤ 23) ∧ (0 ≤ (47 : Int) ∧ (47 : Int) ≤ 59) ∧
      hour_angle sdk true (tm.mk 47 3) = Int.tdiv (sdk.TRIG_MAX_ANGLE * 9) 12 ∧
      five_minute true (tm.mk 47 3) = 3 :=
  ⟨by decide, by decide, (clock_angle_swap sdk (tm.mk 47 3) (by decide) (by decide)).2⟩

/-- C3, evaluation at the failing input: with `swap_hour_min` set, at 13:00 the
render callback computes `five_minute = 13`, outside 0..11; in general the
swapped bucket is the raw hour. -/
theorem five_minute_swap_out_of_range :
    five_minute true (tm.mk 0 13) = 13 ∧ ¬ (five_minute true (tm.mk 0 13) ≤ 11) ∧
      ∀ t : tm, five_minute true t = t.tm_hour := by
  refine ⟨by decide, by decide, ?_⟩
  intro t
  simp only [five_minute, effective_time, ↓reduceIte]
  exact Int.mul_tdiv_cancel _ (by decide)

/-- The guide-line loop started at `shift` issues one chord for each of the
first `k` values `shift + j * line_spacing`, when `k` steps are the first to
reach `diameter / 2`. -/
theorem guide_loop_eq (P : Platform) (center : GPoint) (ha pp D ls : Int) :
    ∀ (k fuel : Nat) (shift : Int), k < fuel →
      (∀ j : Nat, j < k → shift + (j : Int) * ls < Int.tdiv D 2) →
      Int.tdiv D 2 ≤ shift + (k : Int) * ls →
      guide_loop P center ha pp D ls fuel shift =
        Run.ok ((List.range k).map
          (fun j : Nat => guide_line P center ha pp D (shift + (j : Int) * ls))) := by
  intro k
  induction k with
  | zero =>
    intro fuel shift hf _ hk
    cases fuel with
    | zero => omega
    | succ f =>
      have h0 : ¬ shift < Int.tdiv D 2 := by simpa using hk
      simp [guide_loop, h0]
  | succ k ih =>
    intro fuel shift hf hj hk
    cases fuel with
    | zero => omega
    | succ f =>
      have h0 : shift < Int.tdiv D 2 := by simpa using hj 0 (Nat.succ_pos k)
      have ih1 := ih f (shift + ls) (by omega)
        (fun j hjk => by
          have h := hj (j + 1) (by omega)
          push_cast at h
          linarith)
        (by push_cast at hk; linarith)
      simp only [guide_loop, h0, if_true, ih1]
      rw [List.range_succ_eq_map, List.map_cons, List.map_map]
      congr 2
      · simp
      · apply List.map_congr_left
        intro j _
        simp only [Function.comp, Nat.succ_eq_add_one]
        congr 1
        push_cast
        ring

/-- Number of iterations of a loop over `[0, W)` in steps of `ls`. -/
theorem ceil_steps (W ls : Int) (hW : 0 ≤ W) (hls : 1 ≤ ls) :
    (∀ j : Nat, j < ⌈(W : ℚ) / (ls : ℚ)⌉.toNat → (j : Int) * ls < W) ∧
      W ≤ (⌈(W : ℚ) / (ls : ℚ)⌉.toNat : Int) * ls ∧ ⌈(W : ℚ) / (ls : ℚ)⌉.toNat ≤ W.toNat := by
  have hlsq : (0 : ℚ) < (ls : ℚ) := by exact_mod_cast (by omega : (0 : Int) < ls)
  have hc0 : 0 ≤ ⌈(W : ℚ) / (ls : ℚ)⌉ := by
    apply Int.ceil_nonneg
    have : (0 : ℚ) ≤ (W : ℚ) := by exact_mod_cast hW
    positivity
  have hcast : ((⌈(W : ℚ) / (ls : ℚ)⌉.toNat : Nat) : Int) = ⌈(W : ℚ) / (ls : ℚ)⌉ :=
    Int.toNat_of_nonneg hc0
  refine ⟨?_, ?_, ?_⟩
  · intro j hj
    have h1 : (j : Int) < ⌈(W : ℚ) / (ls : ℚ)⌉ := by omega
    have h2 : ((j : Int) : ℚ) < (W : ℚ) / (ls : ℚ) := Int.lt_ceil.mp h1
    have h3 : ((j : Int) : ℚ) * (ls : ℚ) < (W : ℚ) := (lt_div_iff₀ hlsq).mp h2
    exact_mod_cast h3
  · rw [hcast]
    have h2 : (W : ℚ) / (ls : ℚ) ≤ ((⌈(W : ℚ) / (ls : ℚ)⌉ : Int) : ℚ) := Int.le_ceil _
    have h3 : (W : ℚ) ≤ ((⌈(W : ℚ) / (ls : ℚ)⌉ : Int) : ℚ) * (ls : ℚ) := (div_le_iff₀ hlsq).mp h2
    exact_mod_cast h3
  · have h1 : ⌈(W : ℚ) / (ls : ℚ)⌉ ≤ W := by
      apply Int.ceil_le.mpr
      have h1q : (1 : ℚ) ≤ (ls : ℚ) := by exact_mod_cast hls
      have hWq : (0 : ℚ) ≤ (W : ℚ) := by exact_mod_cast hW
      exact div_le_self hWq h1q
    omega

/-- C4 (amended): for every diagonal `D >= 0` and `line_spacing >= 1` the
guide-line loop terminates (any fuel above `D` is enough), every call it issues
is a `graphics_draw_line`, and the number of chords is
`ceil((2 * (D / 2)) / line_spacing)` with `D / 2` the integer half: the loop
covers `[-(D/2), D/2)`.  For even `D` this is `ceil(D / line_spacing)`. -/
theorem guide_line_count (P : Platform) (center : GPoint) (ha pp D ls : Int)
    (hD : 0 ≤ D) (hls : 1 ≤ ls) :
    ∃ calls : List Call,
      (∀ fuel : Nat, D.toNat < fuel → guide_lines P fuel center ha pp D ls = Run.ok calls) ∧
      (∀ c ∈ calls, ∃ p0 p1, c = Call.graphics_draw_line p0 p1) ∧
      (calls.length : Int) = ⌈((2 * (D / 2) : Int) : ℚ) / (ls : ℚ)⌉ ∧
      (D % 2 = 0 → (calls.length : Int) = ⌈(D : ℚ) / (ls : ℚ)⌉) := by
  have hhi : Int.tdiv D 2 = D / 2 := Int.tdiv_eq_ediv hD (by decide)
  have hlo : Int.tdiv (-D) 2 = -(D / 2) := by rw [Int.neg_tdiv, hhi]
  have hW : 0 ≤ 2 * (D / 2) := by omega
  obtain ⟨h1, h2, h3⟩ := ceil_steps (2 * (D / 2)) ls hW hls
  have hc0 : 0 ≤ ⌈((2 * (D / 2) : Int) : ℚ) / (ls : ℚ)⌉ := by
    apply Int.ceil_nonneg
    have : (0 : ℚ) ≤ ((2 * (D / 2) : Int) : ℚ) := by exact_mod_cast hW
    have : (0 : ℚ) ≤ (ls : ℚ) := by exact_mod_cast (by omega : (0 : Int) ≤ ls)
    positivity
  have hlen : ((⌈((2 * (D / 2) : Int) : ℚ) / (ls : ℚ)⌉.toNat : Nat) : Int) =
      ⌈((2 * (D / 2) : Int) : ℚ) / (ls : ℚ)⌉ := Int.toNat_of_nonneg hc0
  refine ⟨(List.range ⌈((2 * (D / 2) : Int) : ℚ) / (ls : ℚ)⌉.toNat).map
    (fun j : Nat => guide_line P center ha pp D (-(D / 2) + (j : Int) * ls)), ?_, ?_, ?_, ?_⟩
  · intro fuel hf
    unfold guide_lines
    rw [hlo]
    apply guide_loop_eq
    · omega
    · intro j hj
      have := h1 j hj
      rw [hhi]
      omega
    · rw [hhi]
      omega
  · intro c hc
    obtain ⟨j, _, rfl⟩ := List.mem_map.mp hc
    exact ⟨_, _, rfl⟩
  · rw [List.length_map, List.length_range, hlen]
  · intro hev
    rw [List.length_map, List.length_range, hlen]
    have : 2 * (D / 2) = D := by omega
    rw [this]

/-- C4 on the 144 x 168 display (diagonal 221) with the default spacing 5. -/
theorem guide_line_count_witness :
    ∃ calls : List Call,
      (∀ fuel : Nat, (221 : Int).toNat < fuel →
        guide_lines sdk fuel (GPoint.mk 72 84) 0 16383 221 5 = Run.ok calls) ∧
      (∀ c ∈ calls, ∃ p0 p1, c = Call.graphics_draw_line p0 p1) ∧
      (calls.length : Int) = ⌈((2 * ((221 : Int) / 2) : Int) : ℚ) / ((5 : Int) : ℚ)⌉ ∧
      ((221 : Int) % 2 = 0 → (calls.length : Int) = ⌈((221 : Int) : ℚ) / ((5 : Int) : ℚ)⌉) :=
  guide_line_count sdk (GPoint.mk 72 84) 0 16383 221 5 (by decide) (by decide)

/-- C4 as stated fails on the 144 x 168 display (diagonal 221) with the default
spacing 5: the loop draws 44 chords, while `ceil(221 / 5) = 45`. -/
theorem guide_line_count_counterexample :
    ∃ calls : List Call,
      guide_lines sdk 100 (GPoint.mk 72 84) 0 16383 221 5 = Run.ok calls ∧
      calls.length = 44 ∧ ⌈(221 : ℚ) / (5 : ℚ)⌉ = 45 := by
  refine ⟨_, guide_loop_eq sdk (GPoint.mk 72 84) 0 16383 221 5 44 100 (Int.tdiv (-221) 2)
    (by decide) ?_ (by decide), by simp, ?_⟩
  · intro j hj
    have : Int.tdiv (-221) 2 = -110 := by decide
    have : Int.tdiv 221 2 = 110 := by decide
    omega
  · rw [Int.ceil_eq_iff]
    norm_num

/-- The vertex loop started at index `m` with `n` iterations left writes the
slots `m .. five_minute - 1` and leaves every other slot as it was. -/
theorem polygon_loop_eq (P : Platform) (center : GPoint) (ss apc b : Int) (hb : b ≤ 12) :
    ∀ (n fuel m : Nat) (pts : List (Option GPoint)), n < fuel → (m : Int) + (n : Int) = b →
      pts.length = 12 →
      ∃ out : List (Option GPoint),
        polygon_loop P center ss apc b fuel (m : Int) pts = Run.ok out ∧ out.length = 12 ∧
        ∀ j : Nat, out[j]? =
          if m ≤ j ∧ (j : Int) < b then some (some (polygon_point P center ss apc (j : Int)))
          else pts[j]? := by
  intro n
  induction n with
  | zero =>
    intro fuel m pts hf hmn hlen
    cases fuel with
    | zero => omega
    | succ f =>
      have h0 : ¬ (m : Int) < b := by omega
      refine ⟨pts, by simp [polygon_loop, h0], hlen, ?_⟩
      intro j
      have : ¬ (m ≤ j ∧ (j : Int) < b) := by omega
      simp [this]
  | succ n ih =>
    intro fuel m pts hf hmn hlen
    cases fuel with
    | zero => omega
    | succ f =>
      have h0 : (m : Int) < b := by omega
      have h1 : 0 ≤ (m : Int) ∧ (m : Int) < 12 := by omega
      obtain ⟨out, hrun, holen, hget⟩ := ih f (m + 1)
        (pts.set m (some (polygon_point P center ss apc (m : Int)))) (by omega)
        (by push_cast; omega) (by simpa using hlen)
      refine ⟨out, ?_, holen, ?_⟩
      · simp only [polygon_loop, h0, h1, and_self, if_true, Int.toNat_ofNat]
        exact_mod_cast hrun
      · intro j
        rw [hget j]
        by_cases hjm : j = m
        · subst hjm
          have hlt : j < pts.length := by omega
          have hc1 : ¬ (j + 1 ≤ j ∧ (j : Int) < b) := by omega
          have hc2 : j ≤ j ∧ (j : Int) < b := ⟨le_refl _, h0⟩
          simp [hc1, hc2, hlt]
        · have hne : m ≠ j := fun h => hjm h.symm
          by_cases hc : m ≤ j ∧ (j : Int) < b
          · have hc1 : m + 1 ≤ j ∧ (j : Int) < b := ⟨by omega, hc.2⟩
            simp [hc, hc1]
          · have hc1 : ¬ (m + 1 ≤ j ∧ (j : Int) < b) := by omega
            simp [hc, hc1, List.getElem?_set_ne hne]

/-- The vertex loop run from index 0 on the empty buffer, for a bucket of at
most 12: the buffer it produces does not depend on the fuel. -/
theorem polygon_loop_run (P : Platform) (center : GPoint) (ss apc b : Int)
    (hb0 : 0 ≤ b) (hb : b ≤ 12) :
    ∃ out : List (Option GPoint),
      (∀ fuel : Nat, b.toNat < fuel →
        polygon_loop P center ss apc b fuel 0 (List.replicate 12 none) = Run.ok out) ∧
      ∀ j : Nat, out[j]? =
        if (j : Int) < b then some (some (polygon_point P center ss apc (j : Int)))
        else if j < 12 then some none else none := by
  have spec : ∀ fuel : Nat, b.toNat < fuel → ∃ out : List (Option GPoint),
      polygon_loop P center ss apc b fuel 0 (List.replicate 12 none) = Run.ok out ∧
      ∀ j : Nat, out[j]? =
        if (j : Int) < b then some (some (polygon_point P center ss apc (j : Int)))
        else if j < 12 then some none else none := by
    intro fuel hf
    obtain ⟨out, hrun, _, hget⟩ := polygon_loop_eq P center ss apc b hb b.toNat fuel 0
      (List.replicate 12 none) hf (by simp; omega) (by simp)
    refine ⟨out, by simpa using hrun, ?_⟩
    intro j
    rw [hget j, List.getElem?_replicate]
    simp
  obtain ⟨out, _, hget⟩ := spec (b.toNat + 1) (by omega)
  refine ⟨out, ?_, hget⟩
  intro fuel hf
  obtain ⟨out1, hrun1, hget1⟩ := spec fuel hf
  have : out1 = out := by
    apply List.ext_getElem?
    intro j
    rw [hget j, hget1 j]
  rw [hrun1, this]

/-- Inside the 32-bit range `to_int32` changes nothing. -/
theorem to_int32_of_range (x : Int) (h : -2147483648 ≤ x ∧ x < 2147483648) : to_int32 x = x := by
  unfold to_int32
  omega

/-- Inside the 16-bit signed range `to_int16` changes nothing. -/
theorem to_int16_of_range (x : Int) (h : -32768 ≤ x ∧ x < 32768) : to_int16 x = x := by
  unfold to_int16
  omega

/-- Truncation of `shape_size - 15 / 2.0`, the `double` radius of line 84. -/
theorem ring_radius_eq (ss : Int) :
    double_to_int ((ss : ℚ) - ((15 : Int) : ℚ) / 2) = Int.tdiv (2 * ss - 15) 2 := by
  have h := double_to_int_div (2 * ss - 15) 2
  have e : (ss : ℚ) - ((15 : Int) : ℚ) / 2 = ((2 * ss - 15 : Int) : ℚ) / ((2 : Nat) : ℚ) := by
    push_cast
    ring
  rw [e, h]
  rfl

/-- The truncated radius of line 84 is `shape_size - 8` from 8 on and
`shape_size - 7` up to 7. -/
theorem ring_radius_cases (ss : Int) :
    (8 ≤ ss → Int.tdiv (2 * ss - 15) 2 = ss - 8) ∧ (ss ≤ 7 → Int.tdiv (2 * ss - 15) 2 = ss - 7) := by
  constructor
  · intro h
    rw [Int.tdiv_eq_ediv (by omega) (by decide)]
    omega
  · intro h
    have e : 2 * ss - 15 = -(15 - 2 * ss) := by ring
    rw [e, Int.neg_tdiv, Int.tdiv_eq_ediv (by omega) (by decide)]
    omega

/-- The ring branch, spelled out: the conversion of its `double` radius has a
result exactly for `shape_size` in 7..65543. -/
theorem ring_calls_eq (st : AppState) (center : GPoint) :
    ring_calls st center =
      if 7 ≤ st.shape_size ∧ st.shape_size ≤ 65543 then
        some
          ([Call.graphics_context_set_stroke_width 15,
            Call.graphics_context_set_stroke_color st.background_color,
            Call.graphics_draw_circle center (Int.tdiv (2 * st.shape_size - 15) 2)] ++
           (if st.outline_shape then
             [Call.graphics_context_set_stroke_width 1,
              Call.graphics_context_set_stroke_color st.line_color,
              Call.graphics_draw_circle center ((st.shape_size - 15) % 65536),
              Call.graphics_draw_circle center (st.shape_size % 65536)]
           else []))
      else none := by
  have hc := ring_radius_cases st.shape_size
  by_cases h : 7 ≤ st.shape_size ∧ st.shape_size ≤ 65543
  · have hr : 0 ≤ Int.tdiv (2 * st.shape_size - 15) 2 ∧
        Int.tdiv (2 * st.shape_size - 15) 2 ≤ 65535 := by
      rcases le_or_lt 8 st.shape_size with h8 | h8
      · rw [hc.1 h8]
        omega
      · rw [hc.2 (by omega)]
        omega
    simp only [ring_calls, double_to_uint16, ring_radius_eq, hr, and_self, if_true, h,
      to_uint16]
  · have hr : ¬ (0 ≤ Int.tdiv (2 * st.shape_size - 15) 2 ∧
        Int.tdiv (2 * st.shape_size - 15) 2 ≤ 65535) := by
      rcases le_or_lt 8 st.shape_size with h8 | h8
      · rw [hc.1 h8]
        omega
      · rw [hc.2 (by omega)]
        omega
    simp only [ring_calls, double_to_uint16, ring_radius_eq, hr, if_false, h]

/-- C5: for every bucket in 0..11 exactly one of the four branches is taken:
bucket 0 issues no call; bucket 1 issues the filled circle (and its outline
when `outline_shape` is set) and nothing else; bucket 2 issues the ring calls
and nothing else; a bucket from 3 on builds and fills a path and issues no
circle.  The path has `num_points = bucket`; its vertex `i`, for each
`i < bucket` and no other, is the point at angle `i * (TRIG_MAX_ANGLE / bucket)`
scaled by `shape_size`, as the machine computes it (product in `int`,
coordinates in `int16_t`), which is the exact value whenever nothing
overflows.  The calls of the stage are the last calls of the render callback,
after the background and the guide lines. -/
theorem minute_shape_branches (P : Platform) (st : AppState) (center : GPoint) (bucket : Int)
    (hb : 0 ≤ bucket ∧ bucket ≤ 11) :
    ((shape_branch bucket = ShapeBranch.no_draw ↔ bucket = 0) ∧
      (shape_branch bucket = ShapeBranch.circle ↔ bucket = 1) ∧
      (shape_branch bucket = ShapeBranch.ring ↔ bucket = 2) ∧
      (shape_branch bucket = ShapeBranch.polygon ↔ 3 ≤ bucket)) ∧
    (bucket = 0 → ∀ fuel : Nat, minute_shape P fuel st center bucket = Run.ok (st, [])) ∧
    (bucket = 1 → ∀ fuel : Nat,
      minute_shape P fuel st center bucket =
        Run.ok (st,
          Call.graphics_fill_circle center (st.shape_size % 65536) ::
            (if st.outline_shape then
              [Call.graphics_draw_circle center (st.shape_size % 65536)]
            else []))) ∧
    (bucket = 2 → ∀ fuel : Nat,
      minute_shape P fuel st center bucket =
        if 7 ≤ st.shape_size ∧ st.shape_size ≤ 65543 then
          Run.ok (st,
            [Call.graphics_context_set_stroke_width 15,
             Call.graphics_context_set_stroke_color st.background_color,
             Call.graphics_draw_circle center (Int.tdiv (2 * st.shape_size - 15) 2)] ++
            (if st.outline_shape then
              [Call.graphics_context_set_stroke_width 1,
               Call.graphics_context_set_stroke_color st.line_color,
               Call.graphics_draw_circle center ((st.shape_size - 15) % 65536),
               Call.graphics_draw_circle center (st.shape_size % 65536)]
            else []))
        else Run.undefined) ∧
    (3 ≤ bucket → ∃ info : GPathInfo,
      (∀ fuel : Nat, bucket.toNat < fuel →
        minute_shape P fuel st center bucket =
          Run.ok ({ st with filling_path := some info },
            (match st.filling_path with
              | some old => [Call.gpath_destroy old]
              | none => []) ++
            [Call.gpath_create info, Call.gpath_draw_filled info] ++
            (if st.outline_shape then [Call.gpath_draw_outline info] else []))) ∧
      info.num_points = bucket ∧
      (∀ i : Nat, (i : Int) < bucket → info.vertex i = some (GPoint.mk
        (to_int16 (center.x + Int.tdiv
          (to_int32
            (P.sin_lookup ((i : Int) * Int.tdiv ( P.TRIG_MAX_ANGLE) bucket) * st.shape_size))
          ( P.TRIG_MAX_RATIO)))
        (to_int16 (center.y - Int.tdiv
          (to_int32
            (P.cos_lookup ((i : Int) * Int.tdiv ( P.TRIG_MAX_ANGLE) bucket) * st.shape_size))
          ( P.TRIG_MAX_RATIO))))) ∧
      (∀ i : Nat, (i : Int) < bucket →
        (-2147483648 ≤
            P.sin_lookup ((i : Int) * Int.tdiv ( P.TRIG_MAX_ANGLE) bucket) * st.shape_size ∧
          P.sin_lookup ((i : Int) * Int.tdiv ( P.TRIG_MAX_ANGLE) bucket) * st.shape_size <
            2147483648) →
        (-2147483648 ≤
            P.cos_lookup ((i : Int) * Int.tdiv ( P.TRIG_MAX_ANGLE) bucket) * st.shape_size ∧
          P.cos_lookup ((i : Int) * Int.tdiv ( P.TRIG_MAX_ANGLE) bucket) * st.shape_size <
            2147483648) →
        (-32768 ≤ center.x + Int.tdiv
            (P.sin_lookup ((i : Int) * Int.tdiv ( P.TRIG_MAX_ANGLE) bucket) * st.shape_size)
            ( P.TRIG_MAX_RATIO) ∧
          center.x + Int.tdiv
            (P.sin_lookup ((i : Int) * Int.tdiv ( P.TRIG_MAX_ANGLE) bucket) * st.shape_size)
            ( P.TRIG_MAX_RATIO) < 32768) →
        (-32768 ≤ center.y - Int.tdiv
            (P.cos_lookup ((i : Int) * Int.tdiv ( P.TRIG_MAX_ANGLE) bucket) * st.shape_size)
            ( P.TRIG_MAX_RATIO) ∧
          center.y - Int.tdiv
            (P.cos_lookup ((i : Int) * Int.tdiv ( P.TRIG_MAX_ANGLE) bucket) * st.shape_size)
            ( P.TRIG_MAX_RATIO) < 32768) →
        info.vertex i = some (GPoint.mk
          (center.x + Int.tdiv
            (P.sin_lookup ((i : Int) * Int.tdiv ( P.TRIG_MAX_ANGLE) bucket) * st.shape_size)
            ( P.TRIG_MAX_RATIO))
          (center.y - Int.tdiv
            (P.cos_lookup ((i : Int) * Int.tdiv ( P.TRIG_MAX_ANGLE) bucket) * st.shape_size)
            ( P.TRIG_MAX_RATIO)))) ∧
      (∀ i : Nat, bucket ≤ (i : Int) → info.vertex i = none)) ∧
    (∀ (fuel : Nat) (bounds : GRect) (t : tm) (lines shape : List Call) (st1 : AppState),
      five_minute st.swap_hour_min t = bucket →
      guide_lines P fuel (P.grect_center_point bounds) (hour_angle P st.swap_hour_min t)
        (perpendicular P (hour_angle P st.swap_hour_min t)) (diameter P bounds)
        st.line_spacing = Run.ok lines →
      minute_shape P fuel st (P.grect_center_point bounds) bucket = Run.ok (st1, shape) →
      bitmap_layer_update_proc P fuel st bounds t =
        Run.ok (st1,
          [Call.graphics_context_set_fill_color st.background_color,
           Call.graphics_fill_rect bounds,
           Call.graphics_context_set_stroke_width 1,
           Call.graphics_context_set_stroke_color st.line_color,
           Call.graphics_context_set_antialiased true] ++ lines ++ shape)) := by
  have hbr : (shape_branch bucket = ShapeBranch.no_draw ↔ bucket = 0) ∧
      (shape_branch bucket = ShapeBranch.circle ↔ bucket = 1) ∧
      (shape_branch bucket = ShapeBranch.ring ↔ bucket = 2) ∧
      (shape_branch bucket = ShapeBranch.polygon ↔ 3 ≤ bucket) := by
    unfold shape_branch
    split_ifs <;> simp <;> omega
  refine ⟨hbr, ?_, ?_, ?_, ?_, ?_⟩
  rotate_left 4
  · intro fuel bounds t lines shape st1 hfm hl hs
    simp only [bitmap_layer_update_proc, hfm, hl, hs]
  · intro h fuel
    simp only [minute_shape, hbr.1.mpr h]
  · intro h fuel
    simp only [minute_shape, hbr.2.1.mpr h, circle_calls, to_uint16]
  · intro h fuel
    simp only [minute_shape, hbr.2.2.1.mpr h, ring_calls_eq]
    split_ifs <;> rfl
  · intro h
    obtain ⟨out, hrun, hget⟩ := polygon_loop_run P center st.shape_size
      (Int.tdiv ( P.TRIG_MAX_ANGLE) bucket) bucket hb.1 (by omega)
    have hv : ∀ i : Nat, (i : Int) < bucket → (GPathInfo.mk bucket out).vertex i =
        some (GPoint.mk
          (to_int16 (center.x + Int.tdiv
            (to_int32
              (P.sin_lookup ((i : Int) * Int.tdiv ( P.TRIG_MAX_ANGLE) bucket) * st.shape_size))
            ( P.TRIG_MAX_RATIO)))
          (to_int16 (center.y - Int.tdiv
            (to_int32
              (P.cos_lookup ((i : Int) * Int.tdiv ( P.TRIG_MAX_ANGLE) bucket) * st.shape_size))
            ( P.TRIG_MAX_RATIO)))) := by
      intro i hi
      have hmul : Int.tdiv ( P.TRIG_MAX_ANGLE) bucket * (i : Int) =
          (i : Int) * Int.tdiv ( P.TRIG_MAX_ANGLE) bucket := mul_comm _ _
      simp only [GPathInfo.vertex, List.get?_eq_getElem?, hget i, hi, if_true, polygon_point,
        hmul]
      rfl
    refine ⟨GPathInfo.mk bucket out, ?_, rfl, hv, ?_, ?_⟩
    · intro fuel hf
      simp only [minute_shape, hbr.2.2.2.mpr h, polygon_branch, hrun fuel hf]
    · intro i hi h1 h2 h3 h4
      rw [hv i hi, to_int32_of_range _ h1, to_int32_of_range _ h2, to_int16_of_range _ h3,
        to_int16_of_range _ h4]
    · intro i hi
      have hi2 : ¬ (i : Int) < bucket := by omega
      simp only [GPathInfo.vertex, List.get?_eq_getElem?, hget i, hi2, if_false]
      split_ifs <;> rfl

/-- C5 on the SDK constants in the default state (`shape_size = 30`), centre
(72, 84): bucket 1 issues the one filled circle of radius 30, bucket 2 the one
stroked circle of radius 22, and bucket 5 a path of five distinct vertices; at
`shape_size = 40000` the product of line 97 wraps and vertex 0 is (72, 25621). -/
theorem minute_shape_branches_witness :
    (0 ≤ (5 : Int) ∧ (5 : Int) ≤ 11) ∧
      minute_shape sdk 0 (prv_init sdk fresh_state) (GPoint.mk 72 84) 1 =
        Run.ok (prv_init sdk fresh_state, [Call.graphics_fill_circle (GPoint.mk 72 84) 30]) ∧
      minute_shape sdk 0 (prv_init sdk fresh_state) (GPoint.mk 72 84) 2 =
        Run.ok (prv_init sdk fresh_state,
          [Call.graphics_context_set_stroke_width 15,
           Call.graphics_context_set_stroke_color (GColor.mk 255),
           Call.graphics_draw_circle (GPoint.mk 72 84) 22]) ∧
      shape_branch 5 = ShapeBranch.polygon ∧
      ∃ info : GPathInfo,
        (∀ fuel : Nat, 5 < fuel →
          minute_shape sdk fuel (prv_init sdk fresh_state) (GPoint.mk 72 84) 5 =
            Run.ok ({ prv_init sdk fresh_state with filling_path := some info },
              [Call.gpath_create info, Call.gpath_draw_filled info])) ∧
        info.num_points = 5 ∧
        info.vertex 0 = some (GPoint.mk 72 54) ∧
        info.vertex 1 = some (GPoint.mk 96 78) ∧
        info.vertex 2 = some (GPoint.mk 84 101) ∧
        info.vertex 3 = some (GPoint.mk 61 102) ∧
        info.vertex 4 = some (GPoint.mk 48 79) ∧
        info.vertex 5 = none ∧
        ∃ big : GPathInfo,
          (∀ fuel : Nat, 5 < fuel →
            minute_shape sdk fuel { prv_init sdk fresh_state with shape_size := 40000 }
                (GPoint.mk 72 84) 5 =
              Run.ok ({ prv_init sdk fresh_state with
                  shape_size := 40000, filling_path := some big },
                [Call.gpath_create big, Call.gpath_draw_filled big])) ∧
          big.vertex 0 = some (GPoint.mk 72 25621) := by
  have h1 := (minute_shape_branches sdk (prv_init sdk fresh_state) (GPoint.mk 72 84) 1
    (by decide)).2.2.1 rfl 0
  have h2 := (minute_shape_branches sdk (prv_init sdk fresh_state) (GPoint.mk 72 84) 2
    (by decide)).2.2.2.1 rfl 0
  have h5 := minute_shape_branches sdk (prv_init sdk fresh_state) (GPoint.mk 72 84) 5
    (by decide)
  obtain ⟨info, hrun, hnum, hvert, _, hnone⟩ := h5.2.2.2.2.1 (by decide)
  obtain ⟨big, hbrun, _, hbvert, _, _⟩ :=
    (minute_shape_branches sdk { prv_init sdk fresh_state with shape_size := 40000 }
      (GPoint.mk 72 84) 5 (by decide)).2.2.2.2.1 (by decide)
  refine ⟨by decide, ?_, ?_, h5.1.2.2.2.mpr (by decide), info, ?_, hnum, ?_, ?_, ?_, ?_, ?_,
    hnone 5 (by decide), big, ?_, ?_⟩
  rotate_left 8
  · intro fuel hf
    rw [hbrun fuel (by simpa using hf)]
    rfl
  · rw [hbvert 0 (by decide)]
    decide
  · rw [h1]
    rfl
  · rw [h2]
    rfl
  · intro fuel hf
    rw [hrun fuel (by simpa using hf)]
    rfl
  · rw [hvert 0 (by decide)]
    decide
  · rw [hvert 1 (by decide)]
    decide
  · rw [hvert 2 (by decide)]
    decide
  · rw [hvert 3 (by decide)]
    decide
  · rw [hvert 4 (by decide)]
    decide

/-- The record of values selected by a message: for each key the decoded value
of its tuple when present, the prior value of the variable otherwise. -/
theorem inbox_received_eq (P : Platform) (st : AppState) (iter : DictionaryIterator) :
    ∃ r : ClaySettings,
      r.BackgroundColor =
        (match dict_find iter MessageKey.background_color with
          | some t => P.GColorFromHEX t.value.int32
          | none => st.background_color) ∧
      r.LineColor =
        (match dict_find iter MessageKey.line_color with
          | some t => P.GColorFromHEX t.value.int32
          | none => st.line_color) ∧
      r.SwapHourMin =
        (match dict_find iter MessageKey.swap_hour_min with
          | some t => decide (t.value.uint8 ≠ 0)
          | none => st.swap_hour_min) ∧
      r.OutlineShape =
        (match dict_find iter MessageKey.outline_shape with
          | some t => decide (t.value.uint8 ≠ 0)
          | none => st.outline_shape) ∧
      r.LineSpacing =
        (match dict_find iter MessageKey.line_spacing with
          | some t => t.value.int32
          | none => st.line_spacing) ∧
      r.ShapeSize =
        (match dict_find iter MessageKey.shape_size with
          | some t => t.value.int32
          | none => st.shape_size) ∧
      prv_inbox_received_handler P st iter =
        { background_color := r.BackgroundColor
          line_color := r.LineColor
          swap_hour_min := r.SwapHourMin
          outline_shape := r.OutlineShape
          line_spacing := r.LineSpacing
          shape_size := r.ShapeSize
          filling_path := st.filling_path
          settings := r
          persist := fun k => if k = SETTINGS_KEY then some r else st.persist k
          mark_dirty_calls := st.mark_dirty_calls + 1 } := by
  unfold prv_inbox_received_handler
  generalize dict_find iter MessageKey.background_color = o1
  generalize dict_find iter MessageKey.line_color = o2
  generalize dict_find iter MessageKey.swap_hour_min = o3
  generalize dict_find iter MessageKey.outline_shape = o4
  generalize dict_find iter MessageKey.line_spacing = o5
  generalize dict_find iter MessageKey.shape_size = o6
  refine ⟨ClaySettings.mk
    (match o1 with
      | some t => P.GColorFromHEX t.value.int32
      | none => st.background_color)
    (match o2 with
      | some t => P.GColorFromHEX t.value.int32
      | none => st.line_color)
    (match o3 with
      | some t => decide (t.value.uint8 ≠ 0)
      | none => st.swap_hour_min)
    (match o4 with
      | some t => decide (t.value.uint8 ≠ 0)
      | none => st.outline_shape)
    (match o5 with
      | some t => t.value.int32
      | none => st.line_spacing)
    (match o6 with
      | some t => t.value.int32
      | none => st.shape_size), rfl, rfl, rfl, rfl, rfl, rfl, ?_⟩
  cases o1 <;> cases o2 <;> cases o3 <;> cases o4 <;> cases o5 <;> cases o6 <;> rfl

/-- C6: after `prv_inbox_received_handler`, each of the six render variables
holds the value carried by the message when its key is present and its prior
value when the key is absent; one redraw has been requested; the record stored
under `SETTINGS_KEY` is the whole resulting state (and `settings` equals it);
no other storage key changes.  For a message carrying only `shape_size = 50`,
`shape_size` is 50 and the other five variables are unchanged. -/
theorem inbox_received_frame (P : Platform) (st : AppState) (iter : DictionaryIterator) :
    ((prv_inbox_received_handler P st iter).background_color =
        (match dict_find iter MessageKey.background_color with
          | some t => P.GColorFromHEX t.value.int32
          | none => st.background_color) ∧
      (prv_inbox_received_handler P st iter).line_color =
        (match dict_find iter MessageKey.line_color with
          | some t => P.GColorFromHEX t.value.int32
          | none => st.line_color) ∧
      (prv_inbox_received_handler P st iter).swap_hour_min =
        (match dict_find iter MessageKey.swap_hour_min with
          | some t => decide (t.value.uint8 ≠ 0)
          | none => st.swap_hour_min) ∧
      (prv_inbox_received_handler P st iter).outline_shape =
        (match dict_find iter MessageKey.outline_shape with
          | some t => decide (t.value.uint8 ≠ 0)
          | none => st.outline_shape) ∧
      (prv_inbox_received_handler P st iter).line_spacing =
        (match dict_find iter MessageKey.line_spacing with
          | some t => t.value.int32
          | none => st.line_spacing) ∧
      (prv_inbox_received_handler P st iter).shape_size =
        (match dict_find iter MessageKey.shape_size with
          | some t => t.value.int32
          | none => st.shape_size)) ∧
    (prv_inbox_received_handler P st iter).mark_dirty_calls = st.mark_dirty_calls + 1 ∧
    ((prv_inbox_received_handler P st iter).persist SETTINGS_KEY =
        some (render_state (prv_inbox_received_handler P st iter)) ∧
      (prv_inbox_received_handler P st iter).settings =
        render_state (prv_inbox_received_handler P st iter) ∧
      ∀ k : Nat, k ≠ SETTINGS_KEY →
        (prv_inbox_received_handler P st iter).persist k = st.persist k) ∧
    (∀ u8 : Nat,
      render_state
          (prv_inbox_received_handler P st [Tuple.mk MessageKey.shape_size (TupleValue.mk 50 u8)]) =
        { render_state st with ShapeSize := 50 }) := by
  obtain ⟨r, h1, h2, h3, h4, h5, h6, heq⟩ := inbox_received_eq P st iter
  refine ⟨?_, ?_, ?_, ?_⟩
  · rw [heq]
    exact ⟨h1, h2, h3, h4, h5, h6⟩
  · rw [heq]
  · rw [heq]
    refine ⟨?_, rfl, ?_⟩
    · simp [render_state]
    · intro k hk
      simp [hk]
  · intro u8
    rfl

/-- C7: if the record stored by a run of `prv_inbox_received_handler` is `S` and
the process starts again on that storage (whatever its variables hold), then
after `prv_init` each of the six render variables equals the field of `S`; and
`S` is the render state the handler left in memory. -/
theorem restore_round_trip (P : Platform) (st st0 : AppState) (iter : DictionaryIterator)
    (S : ClaySettings)
    (hS : (prv_inbox_received_handler P st iter).persist SETTINGS_KEY = some S)
    (h0 : st0.persist = (prv_inbox_received_handler P st iter).persist) :
    ((prv_init P st0).background_color = S.BackgroundColor ∧
      (prv_init P st0).line_color = S.LineColor ∧
      (prv_init P st0).swap_hour_min = S.SwapHourMin ∧
      (prv_init P st0).outline_shape = S.OutlineShape ∧
      (prv_init P st0).line_spacing = S.LineSpacing ∧
      (prv_init P st0).shape_size = S.ShapeSize) ∧
    S = render_state (prv_inbox_received_handler P st iter) := by
  have hread : persist_read_data st0.persist SETTINGS_KEY
      { BackgroundColor := P.GColorWhite
        LineColor := P.GColorFromRGBA 205 34 49 255
        SwapHourMin := false
        OutlineShape := false
        LineSpacing := 5
        ShapeSize := 30 } = S := by
    simp only [persist_read_data, h0, hS]
  constructor
  · simp only [prv_init, hread, and_self]
  · obtain ⟨_, _, _, _, _, _, _, heq⟩ := inbox_received_eq P st iter
    rw [heq] at hS ⊢
    simpa [render_state] using hS.symm

/-- C7 for a message that sets `shape_size` to 50 on the default state. -/
theorem restore_round_trip_witness :
    (prv_inbox_received_handler sdk (prv_init sdk fresh_state)
        [Tuple.mk MessageKey.shape_size (TupleValue.mk 50 50)]).persist SETTINGS_KEY =
      some (ClaySettings.mk (GColor.mk 255) (GColor.mk 240) false false 5 50) ∧
    (prv_init sdk { fresh_state with
      persist := (prv_inbox_received_handler sdk (prv_init sdk fresh_state)
        [Tuple.mk MessageKey.shape_size (TupleValue.mk 50 50)]).persist }).shape_size = 50 :=
  ⟨by decide,
    (restore_round_trip sdk (prv_init sdk fresh_state)
      { fresh_state with
        persist := (prv_inbox_received_handler sdk (prv_init sdk fresh_state)
          [Tuple.mk MessageKey.shape_size (TupleValue.mk 50 50)]).persist }
      [Tuple.mk MessageKey.shape_size (TupleValue.mk 50 50)]
      (ClaySettings.mk (GColor.mk 255) (GColor.mk 240) false false 5 50)
      (by decide) rfl).1.2.2.2.2.2⟩

/-- C8: when storage holds no record under `SETTINGS_KEY`, `prv_init` (a total
function) leaves the six render variables, and `settings`, at the built-in
values white, RGBA(205,34,49,255), false, false, 5, 30. -/
theorem init_defaults (P : Platform) (st : AppState) (h : st.persist SETTINGS_KEY = none) :
    (prv_init P st).background_color = P.GColorWhite ∧
      (prv_init P st).line_color = P.GColorFromRGBA 205 34 49 255 ∧
      (prv_init P st).swap_hour_min = false ∧
      (prv_init P st).outline_shape = false ∧
      (prv_init P st).line_spacing = 5 ∧
      (prv_init P st).shape_size = 30 ∧
      (prv_init P st).settings = render_state (prv_init P st) := by
  simp [prv_init, persist_read_data, h, render_state]

/-- C8 on a freshly started process. -/
theorem init_defaults_witness :
    fresh_state.persist SETTINGS_KEY = none ∧
      (prv_init sdk fresh_state).background_color = sdk.GColorWhite ∧
      (prv_init sdk fresh_state).line_color = sdk.GColorFromRGBA 205 34 49 255 ∧
      (prv_init sdk fresh_state).swap_hour_min = false ∧
      (prv_init sdk fresh_state).outline_shape = false ∧
      (prv_init sdk fresh_state).line_spacing = 5 ∧
      (prv_init sdk fresh_state).shape_size = 30 ∧
      (prv_init sdk fresh_state).settings = render_state (prv_init sdk fresh_state) :=
  ⟨rfl, init_defaults sdk fresh_state rfl⟩

/-- C9: for every tick with hour in 0..23 and minute in 0..59, `tick_handler`
calls `layer_mark_dirty` (exactly once) when `(hour * 60 + minute) mod 5 = 0`
and does not call it otherwise. -/
theorem tick_redraw_iff (st : AppState) (t : tm)
    (hh : 0 ≤ t.tm_hour ∧ t.tm_hour ≤ 23) (hm : 0 ≤ t.tm_min ∧ t.tm_min ≤ 59) :
    ((t.tm_hour * 60 + t.tm_min) % 5 = 0 →
      (tick_handler st t).mark_dirty_calls = st.mark_dirty_calls + 1) ∧
    ((t.tm_hour * 60 + t.tm_min) % 5 ≠ 0 →
      (tick_handler st t).mark_dirty_calls = st.mark_dirty_calls) ∧
    ((tick_handler st t).mark_dirty_calls = st.mark_dirty_calls + 1 ↔
      (t.tm_hour * 60 + t.tm_min) % 5 = 0) := by
  have hmod : Int.tmod (t.tm_min + t.tm_hour * 60) 5 = (t.tm_hour * 60 + t.tm_min) % 5 := by
    rw [Int.tmod_eq_emod (by omega) (by decide), add_comm]
  by_cases hc : (t.tm_hour * 60 + t.tm_min) % 5 = 0
  · have e : (tick_handler st t).mark_dirty_calls = st.mark_dirty_calls + 1 := by
      simp [tick_handler, hmod, hc, layer_mark_dirty]
    exact ⟨fun _ => e, fun h => absurd hc h, fun _ => hc, fun _ => e⟩
  · have e : (tick_handler st t).mark_dirty_calls = st.mark_dirty_calls := by
      simp [tick_handler, hmod, hc]
    refine ⟨fun h => absurd h hc, fun _ => e, fun h => ?_, fun h => absurd h hc⟩
    rw [e] at h
    omega

/-- C9 at 10:35 (a multiple of five minutes). -/
theorem tick_redraw_iff_witness :
    (0 ≤ (10 : Int) ∧ (10 : Int) ≤ 23) ∧ (0 ≤ (35 : Int) ∧ (35 : Int) ≤ 59) ∧
      ((tick_handler fresh_state (tm.mk 35 10)).mark_dirty_calls =
          fresh_state.mark_dirty_calls + 1 ↔
        ((10 : Int) * 60 + 35) % 5 = 0) :=
  ⟨by decide, by decide,
    (tick_redraw_iff fresh_state (tm.mk 35 10) (by decide) (by decide)).2.2⟩

/-- C10, evaluation on the SDK constants: for every hour angle the code adds
`TRIG_MAX_RATIO / 4 = 16383`, one unit short of the quarter turn
`TRIG_MAX_ANGLE / 4 = 16384`; in general the offset is `TRIG_MAX_RATIO / 4`. -/
theorem perpendicular_offset :
    (∀ (P : Platform) (ha : Int), perpendicular P ha = ha + Int.tdiv ( P.TRIG_MAX_RATIO) 4) ∧
    (∀ ha : Int, perpendicular sdk ha = ha + 16383 ∧
      ha + Int.tdiv ( sdk.TRIG_MAX_ANGLE) 4 = ha + 16384 ∧
      perpendicular sdk ha ≠ ha + Int.tdiv ( sdk.TRIG_MAX_ANGLE) 4) ∧
    perpendicular sdk (hour_angle sdk false (tm.mk 0 0)) = 16383 := by
  have h1 : Int.tdiv ( sdk.TRIG_MAX_RATIO) 4 = 16383 := by decide
  have h2 : Int.tdiv ( sdk.TRIG_MAX_ANGLE) 4 = 16384 := by decide
  refine ⟨fun _ _ => rfl, fun ha => ?_, ?_⟩
  · simp only [perpendicular, h1, h2]
    refine ⟨trivial, trivial, ?_⟩
    omega
  · have h0 : hour_angle sdk false (tm.mk 0 0) = 0 := by
      have h := double_to_int_div ( sdk.TRIG_MAX_ANGLE * Int.tmod 0 12) 12
      simp only [hour_angle, effective_time, Bool.false_eq_true, ↓reduceIte]
      rw [show ((12 : Nat) : ℚ) = (12 : ℚ) by norm_num] at h
      rw [h]
      decide
    simp only [perpendicular, h1, h0]
    decide

/-- The minute-shape stage at bucket 2, spelled out for every `shape_size`. -/
theorem ring_branch_eq (P : Platform) (fuel : Nat) (st : AppState) (center : GPoint) :
    minute_shape P fuel st center 2 =
      if 7 ≤ st.shape_size ∧ st.shape_size ≤ 65543 then
        Run.ok (st,
          [Call.graphics_context_set_stroke_width 15,
           Call.graphics_context_set_stroke_color st.background_color,
           Call.graphics_draw_circle center (Int.tdiv (2 * st.shape_size - 15) 2)] ++
          (if st.outline_shape then
            [Call.graphics_context_set_stroke_width 1,
             Call.graphics_context_set_stroke_color st.line_color,
             Call.graphics_draw_circle center ((st.shape_size - 15) % 65536),
             Call.graphics_draw_circle center (st.shape_size % 65536)]
          else []))
      else Run.undefined := by
  have hb : shape_branch 2 = ShapeBranch.ring := by decide
  simp only [minute_shape, hb, ring_calls_eq]
  split_ifs <;> rfl

/-- C11 (amended): for every `shape_size` in 15..65535, when the bucket is 2 the
renderer sets the stroke width to 15 and the stroke colour to
`background_color` and draws one circle whose integer radius is
`shape_size - 15 / 2.0` truncated toward zero, that is `shape_size - 8`; when
`outline_shape` is set, and only then, it then draws exactly two more circles,
of stroke width 1 in `line_color`, at radii `shape_size - 15` and
`shape_size`. -/
theorem ring_branch_calls (P : Platform) (fuel : Nat) (st : AppState) (center : GPoint)
    (h : 15 ≤ st.shape_size ∧ st.shape_size ≤ 65535) :
    minute_shape P fuel st center 2 =
        Run.ok (st,
          [Call.graphics_context_set_stroke_width 15,
           Call.graphics_context_set_stroke_color st.background_color,
           Call.graphics_draw_circle center (st.shape_size - 8)] ++
          (if st.outline_shape then
            [Call.graphics_context_set_stroke_width 1,
             Call.graphics_context_set_stroke_color st.line_color,
             Call.graphics_draw_circle center (st.shape_size - 15),
             Call.graphics_draw_circle center st.shape_size]
          else [])) ∧
      st.shape_size - 8 = double_to_int ((st.shape_size : ℚ) - ((15 : Int) : ℚ) / 2) := by
  have hr : Int.tdiv (2 * st.shape_size - 15) 2 = st.shape_size - 8 :=
    (ring_radius_cases st.shape_size).1 (by omega)
  have hdom : 7 ≤ st.shape_size ∧ st.shape_size ≤ 65543 := by omega
  have h15 : (st.shape_size - 15) % 65536 = st.shape_size - 15 :=
    Int.emod_eq_of_lt (by omega) (by omega)
  have h0 : st.shape_size % 65536 = st.shape_size := Int.emod_eq_of_lt (by omega) (by omega)
  constructor
  · rw [ring_branch_eq, if_pos hdom, hr, h15, h0]
  · rw [ring_radius_eq, hr]

/-- C11 (amended) in the default state (`shape_size = 30`, no outline) and in
the default state with the outline switched on. -/
theorem ring_branch_calls_witness :
    (15 ≤ (prv_init sdk fresh_state).shape_size ∧ (prv_init sdk fresh_state).shape_size ≤ 65535) ∧
      minute_shape sdk 0 (prv_init sdk fresh_state) (GPoint.mk 72 84) 2 =
        Run.ok (prv_init sdk fresh_state,
          [Call.graphics_context_set_stroke_width 15,
           Call.graphics_context_set_stroke_color (GColor.mk 255),
           Call.graphics_draw_circle (GPoint.mk 72 84) 22]) ∧
      minute_shape sdk 0 { prv_init sdk fresh_state with outline_shape := true }
          (GPoint.mk 72 84) 2 =
        Run.ok ({ prv_init sdk fresh_state with outline_shape := true },
          [Call.graphics_context_set_stroke_width 15,
           Call.graphics_context_set_stroke_color (GColor.mk 255),
           Call.graphics_draw_circle (GPoint.mk 72 84) 22,
           Call.graphics_context_set_stroke_width 1,
           Call.graphics_context_set_stroke_color (GColor.mk 240),
           Call.graphics_draw_circle (GPoint.mk 72 84) 15,
           Call.graphics_draw_circle (GPoint.mk 72 84) 30]) := by
  refine ⟨by decide, ?_, ?_⟩
  · rw [(ring_branch_calls sdk 0 (prv_init sdk fresh_state) (GPoint.mk 72 84) (by decide)).1]
    rfl
  · rw [(ring_branch_calls sdk 0 { prv_init sdk fresh_state with outline_shape := true }
      (GPoint.mk 72 84) (by decide)).1]
    rfl

/-- C11 as stated fails.  At the default `shape_size = 30` the radius of the
thick stroke is 22, which is neither `30 - 15 / 2` in integer arithmetic (23)
nor the exact `30 - 15 / 2` (22.5).  At `shape_size = 10` with the outline on,
the inner outline circle has radius 65531, not `10 - 15`; at
`shape_size = 65540` the outer one has radius 4, not 65540. -/
theorem ring_radius_counterexample :
    (minute_shape sdk 0 (prv_init sdk fresh_state) (GPoint.mk 72 84) 2 =
        Run.ok (prv_init sdk fresh_state,
          [Call.graphics_context_set_stroke_width 15,
           Call.graphics_context_set_stroke_color (GColor.mk 255),
           Call.graphics_draw_circle (GPoint.mk 72 84) 22]) ∧
      (prv_init sdk fresh_state).shape_size = 30 ∧
      (22 : Int) ≠ 30 - 15 / 2 ∧ (22 : ℚ) ≠ 30 - 15 / 2) ∧
    (minute_shape sdk 0
        { prv_init sdk fresh_state with shape_size := 10, outline_shape := true }
        (GPoint.mk 72 84) 2 =
      Run.ok ({ prv_init sdk fresh_state with shape_size := 10, outline_shape := true },
        [Call.graphics_context_set_stroke_width 15,
         Call.graphics_context_set_stroke_color (GColor.mk 255),
         Call.graphics_draw_circle (GPoint.mk 72 84) 2,
         Call.graphics_context_set_stroke_width 1,
         Call.graphics_context_set_stroke_color (GColor.mk 240),
         Call.graphics_draw_circle (GPoint.mk 72 84) 65531,
         Call.graphics_draw_circle (GPoint.mk 72 84) 10]) ∧
      (65531 : Int) ≠ 10 - 15) ∧
    (minute_shape sdk 0
        { prv_init sdk fresh_state with shape_size := 65540, outline_shape := true }
        (GPoint.mk 72 84) 2 =
      Run.ok ({ prv_init sdk fresh_state with shape_size := 65540, outline_shape := true },
        [Call.graphics_context_set_stroke_width 15,
         Call.graphics_context_set_stroke_color (GColor.mk 255),
         Call.graphics_draw_circle (GPoint.mk 72 84) 65532,
         Call.graphics_context_set_stroke_width 1,
         Call.graphics_context_set_stroke_color (GColor.mk 240),
         Call.graphics_draw_circle (GPoint.mk 72 84) 65525,
         Call.graphics_draw_circle (GPoint.mk 72 84) 4]) ∧
      (4 : Int) ≠ 65540) := by
  refine ⟨⟨?_, rfl, by decide, by norm_num⟩, ⟨?_, by decide⟩, ⟨?_, by decide⟩⟩
  · rw [ring_branch_eq]
    rfl
  · rw [ring_branch_eq]
    rfl
  · rw [ring_branch_eq]
    rfl

/-- C12: running `prv_inbox_received_handler` twice in a row on the same
message leaves the same six render variables, the same `settings` record and
the same persistent storage as running it once. -/
theorem inbox_received_idempotent (P : Platform) (st : AppState) (iter : DictionaryIterator) :
    render_state (prv_inbox_received_handler P (prv_inbox_received_handler P st iter) iter) =
        render_state (prv_inbox_received_handler P st iter) ∧
      (prv_inbox_received_handler P (prv_inbox_received_handler P st iter) iter).settings =
        (prv_inbox_received_handler P st iter).settings ∧
      (prv_inbox_received_handler P (prv_inbox_received_handler P st iter) iter).persist =
        (prv_inbox_received_handler P st iter).persist ∧
      (prv_inbox_received_handler P (prv_inbox_received_handler P st iter) iter).persist
          SETTINGS_KEY =
        some (render_state (prv_inbox_received_handler P st iter)) := by
  obtain ⟨r, h1, h2, h3, h4, h5, h6, heq⟩ := inbox_received_eq P st iter
  obtain ⟨q, g1, g2, g3, g4, g5, g6, geq⟩ :=
    inbox_received_eq P (prv_inbox_received_handler P st iter) iter
  have hq : q = r := by
    rw [heq] at g1 g2 g3 g4 g5 g6
    have e1 : q.BackgroundColor = r.BackgroundColor := by
      rw [g1, h1]
      cases dict_find iter MessageKey.background_color <;> simp [h1]
    have e2 : q.LineColor = r.LineColor := by
      rw [g2, h2]
      cases dict_find iter MessageKey.line_color <;> simp [h2]
    have e3 : q.SwapHourMin = r.SwapHourMin := by
      rw [g3, h3]
      cases dict_find iter MessageKey.swap_hour_min <;> simp [h3]
    have e4 : q.OutlineShape = r.OutlineShape := by
      rw [g4, h4]
      cases dict_find iter MessageKey.outline_shape <;> simp [h4]
    have e5 : q.LineSpacing = r.LineSpacing := by
      rw [g5, h5]
      cases dict_find iter MessageKey.line_spacing <;> simp [h5]
    have e6 : q.ShapeSize = r.ShapeSize := by
      rw [g6, h6]
      cases dict_find iter MessageKey.shape_size <;> simp [h6]
    cases q
    cases r
    simp only [ClaySettings.mk.injEq]
    exact ⟨e1, e2, e3, e4, e5, e6⟩
  rw [geq, hq, heq]
  refine ⟨rfl, rfl, ?_, ?_⟩
  · funext k
    by_cases hk : k = SETTINGS_KEY <;> simp [hk]
  · simp [render_state]

/-- C13 (amended): `prv_inbox_received_handler` applies no clamp.  After it, the
`line_spacing` variable holds exactly the value carried by the message under
the `line_spacing` key (whatever its sign), or its prior value when the message
has no such key, and the stored record and `settings` hold the same value. -/
theorem inbox_line_spacing_unclamped (P : Platform) (st : AppState)
    (iter : DictionaryIterator) :
    (prv_inbox_received_handler P st iter).line_spacing =
        (match dict_find iter MessageKey.line_spacing with
          | some t => t.value.int32
          | none => st.line_spacing) ∧
      (prv_inbox_received_handler P st iter).settings.LineSpacing =
        (prv_inbox_received_handler P st iter).line_spacing ∧
      ∃ r : ClaySettings,
        (prv_inbox_received_handler P st iter).persist SETTINGS_KEY = some r ∧
        r.LineSpacing = (prv_inbox_received_handler P st iter).line_spacing := by
  obtain ⟨r, _, _, _, _, h5, _, heq⟩ := inbox_received_eq P st iter
  rw [heq]
  exact ⟨h5, rfl, r, by simp, rfl⟩

/-- C13 as stated fails: a message carrying `line_spacing = 0`, received in the
default state, leaves `line_spacing = 0` in the render state and in the stored
record. -/
theorem inbox_line_spacing_counterexample :
    (prv_inbox_received_handler sdk (prv_init sdk fresh_state)
        [Tuple.mk MessageKey.line_spacing (TupleValue.mk 0 0)]).line_spacing = 0 ∧
      ((prv_inbox_received_handler sdk (prv_init sdk fresh_state)
        [Tuple.mk MessageKey.line_spacing (TupleValue.mk 0 0)]).persist SETTINGS_KEY).map
          ClaySettings.LineSpacing = some 0 ∧
      ¬ (1 ≤ (prv_inbox_received_handler sdk (prv_init sdk fresh_state)
        [Tuple.mk MessageKey.line_spacing (TupleValue.mk 0 0)]).line_spacing) := by
  refine ⟨rfl, rfl, ?_⟩
  decide

/-- Every call issued by the guide-line loop, whatever the spacing, is the loop
body run at some value of `shift`. -/
theorem guide_loop_calls (P : Platform) (center : GPoint) (ha pp D ls : Int) :
    ∀ (fuel : Nat) (shift : Int) (calls : List Call),
      guide_loop P center ha pp D ls fuel shift = Run.ok calls →
      ∀ c ∈ calls, ∃ s : Int, c = guide_line P center ha pp D s := by
  intro fuel
  induction fuel with
  | zero =>
    intro shift calls h
    simp [guide_loop] at h
  | succ f ih =>
    intro shift calls h c hc
    by_cases h0 : shift < Int.tdiv D 2
    · simp only [guide_loop, h0, if_true] at h
      cases hrec : guide_loop P center ha pp D ls f (shift + ls) with
      | ok rest =>
        rw [hrec] at h
        simp only [Run.ok.injEq] at h
        subst h
        rcases List.mem_cons.mp hc with hhead | htail
        · exact ⟨shift, hhead⟩
        · exact ih (shift + ls) rest hrec c htail
      | timeout =>
        rw [hrec] at h
        cases h
      | fault =>
        rw [hrec] at h
        cases h
      | undefined =>
        rw [hrec] at h
        cases h
    · simp only [guide_loop, h0, if_false, Run.ok.injEq] at h
      subst h
      simp at hc

/-- C14: for every hour angle, centre, diagonal `D` and `shift`, and arbitrary
integer values of the sine and cosine lookups, the chord drawn for that shift
runs from `center + v + offset` to `center - v + offset` with the one vector
`v = (sin(hour_angle) * (D/2) / RATIO, -cos(hour_angle) * (D/2) / RATIO)` and
`offset = (shiftX, shiftY)`: the coordinate-wise sum of its endpoints is
`2 * (center + offset)`.  Every call of the guide-line loop is such a chord. -/
theorem chord_symmetric (P : Platform) (center : GPoint) (ha pp D shift : Int) :
    guide_line P center ha pp D shift =
        Call.graphics_draw_line
          (GPoint.mk
            (center.x + Int.tdiv (P.sin_lookup ha * Int.tdiv D 2) ( P.TRIG_MAX_RATIO) +
              Int.tdiv (P.sin_lookup pp * shift) ( P.TRIG_MAX_RATIO))
            (center.y + -Int.tdiv (P.cos_lookup ha * Int.tdiv D 2) ( P.TRIG_MAX_RATIO) +
              Int.tdiv (-(P.cos_lookup pp) * shift) ( P.TRIG_MAX_RATIO)))
          (GPoint.mk
            (center.x - Int.tdiv (P.sin_lookup ha * Int.tdiv D 2) ( P.TRIG_MAX_RATIO) +
              Int.tdiv (P.sin_lookup pp * shift) ( P.TRIG_MAX_RATIO))
            (center.y - -Int.tdiv (P.cos_lookup ha * Int.tdiv D 2) ( P.TRIG_MAX_RATIO) +
              Int.tdiv (-(P.cos_lookup pp) * shift) ( P.TRIG_MAX_RATIO))) ∧
      -Int.tdiv (P.cos_lookup ha * Int.tdiv D 2) ( P.TRIG_MAX_RATIO) =
        Int.tdiv (-(P.cos_lookup ha) * Int.tdiv D 2) ( P.TRIG_MAX_RATIO) ∧
      (∃ p1 p2 : GPoint, guide_line P center ha pp D shift = Call.graphics_draw_line p1 p2 ∧
        p1.x + p2.x = 2 * (center.x + Int.tdiv (P.sin_lookup pp * shift) ( P.TRIG_MAX_RATIO)) ∧
        p1.y + p2.y =
          2 * (center.y + Int.tdiv (-(P.cos_lookup pp) * shift) ( P.TRIG_MAX_RATIO))) ∧
      (∀ (fuel : Nat) (ls : Int) (calls : List Call),
        guide_lines P fuel center ha pp D ls = Run.ok calls →
        ∀ c ∈ calls, ∃ (s : Int) (p1 p2 : GPoint), c = Call.graphics_draw_line p1 p2 ∧
          p1.x + p2.x = 2 * (center.x + Int.tdiv (P.sin_lookup pp * s) ( P.TRIG_MAX_RATIO)) ∧
          p1.y + p2.y =
            2 * (center.y + Int.tdiv (-(P.cos_lookup pp) * s) ( P.TRIG_MAX_RATIO))) := by
  refine ⟨?_, ?_, ?_, ?_⟩
  · simp only [guide_line, Call.graphics_draw_line.injEq, GPoint.mk.injEq]
    refine ⟨⟨trivial, ?_⟩, trivial, ?_⟩ <;> ring
  · rw [Int.neg_mul, Int.neg_tdiv]
  · refine ⟨_, _, rfl, ?_, ?_⟩ <;> ring
  · intro fuel ls calls h c hc
    obtain ⟨s, rfl⟩ := guide_loop_calls P center ha pp D ls fuel _ calls h c hc
    refine ⟨s, _, _, rfl, ?_, ?_⟩ <;> ring

/-- For a bucket of 13 or more the vertex loop reaches index 12, a write past
the 12 slots of `points`, whatever the buffer holds. -/
theorem polygon_loop_fault (P : Platform) (center : GPoint) (ss apc b : Int) (hb : 13 ≤ b) :
    ∀ (n fuel m : Nat) (pts : List (Option GPoint)), m + n = 12 → n < fuel →
      polygon_loop P center ss apc b fuel (m : Int) pts = Run.fault := by
  intro n
  induction n with
  | zero =>
    intro fuel m pts hm hf
    cases fuel with
    | zero => omega
    | succ f =>
      have h0 : (m : Int) < b := by omega
      have h1 : ¬ (0 ≤ (m : Int) ∧ (m : Int) < 12) := by omega
      simp only [polygon_loop, h0, h1, if_true, if_false]
  | succ n ih =>
    intro fuel m pts hm hf
    cases fuel with
    | zero => omega
    | succ f =>
      have h0 : (m : Int) < b := by omega
      have h1 : 0 ≤ (m : Int) ∧ (m : Int) < 12 := by omega
      have hrec := ih f (m + 1)
        (pts.set m (some (polygon_point P center ss apc (m : Int)))) (by omega) (by omega)
      simp only [polygon_loop, h0, h1, and_self, if_true, Int.toNat_ofNat]
      exact_mod_cast hrec

/-- The render callback faults when its minute-shape stage does. -/
theorem update_proc_fault (P : Platform) (fuel : Nat) (st : AppState) (bounds : GRect) (t : tm)
    (lines : List Call)
    (hl : guide_lines P fuel (P.grect_center_point bounds) (hour_angle P st.swap_hour_min t)
      (perpendicular P (hour_angle P st.swap_hour_min t)) (diameter P bounds) st.line_spacing =
        Run.ok lines)
    (hs : minute_shape P fuel st (P.grect_center_point bounds) (five_minute st.swap_hour_min t) =
      Run.fault) :
    bitmap_layer_update_proc P fuel st bounds t = Run.fault := by
  simp only [bitmap_layer_update_proc, hl, hs]

/-- C15, evaluation at the failing input: with `swap_hour_min` set, at every
hour from 13 on (13:00 in particular) the bucket is the raw hour, the polygon
branch is taken and its loop writes `points[12]`, outside the 12-slot buffer:
the minute-shape stage faults, and so does the render callback once the guide
lines are drawn; on the 144 x 168 display with the default settings and
`swap_hour_min` set, the callback faults at 13:00. -/
theorem polygon_write_out_of_bounds :
    (∀ (P : Platform) (st : AppState) (center : GPoint) (fuel : Nat) (t : tm),
      13 ≤ t.tm_hour →
      minute_shape P (fuel + 13) st center (five_minute true t) = Run.fault) ∧
    (∀ (P : Platform) (st : AppState) (center : GPoint) (fuel : Nat),
      minute_shape P (fuel + 13) st center (five_minute true (tm.mk 0 13)) = Run.fault) ∧
    bitmap_layer_update_proc sdk 300 { prv_init sdk fresh_state with swap_hour_min := true }
      (GRect.mk (GPoint.mk 0 0) (GSize.mk 144 168)) (tm.mk 0 13) = Run.fault := by
  have gen : ∀ (P : Platform) (st : AppState) (center : GPoint) (fuel : Nat) (t : tm),
      13 ≤ t.tm_hour →
      minute_shape P (fuel + 13) st center (five_minute true t) = Run.fault := by
    intro P st center fuel t ht
    have hfm : five_minute true t = t.tm_hour := by
      simp only [five_minute, effective_time, ↓reduceIte]
      exact Int.mul_tdiv_cancel _ (by decide)
    have hbr : shape_branch t.tm_hour = ShapeBranch.polygon := by
      unfold shape_branch
      split_ifs <;> first | omega | rfl
    have hloop := polygon_loop_fault P center st.shape_size
      (Int.tdiv ( P.TRIG_MAX_ANGLE) t.tm_hour) t.tm_hour ht 12 (fuel + 13) 0
      (List.replicate 12 none) (by omega) (by omega)
    have hloop0 : polygon_loop P center st.shape_size (Int.tdiv ( P.TRIG_MAX_ANGLE) t.tm_hour)
        t.tm_hour (fuel + 13) 0 (List.replicate 12 none) = Run.fault := by
      exact_mod_cast hloop
    simp only [hfm, minute_shape, hbr, polygon_branch, hloop0]
  refine ⟨gen, fun P st center fuel => gen P st center fuel (tm.mk 0 13) (by decide), ?_⟩
  have hd : diameter sdk (GRect.mk (GPoint.mk 0 0) (GSize.mk 144 168)) = 221 := by
    have hq : Nat.sqrt 48960 = 221 := by
      symm
      rw [Nat.eq_sqrt]
      decide
    show Int.ofNat (Nat.sqrt ((144 : Int) ^ (2 : Int).toNat + (168 : Int) ^ (2 : Int).toNat).toNat)
      = 221
    have e : ((144 : Int) ^ (2 : Int).toNat + (168 : Int) ^ (2 : Int).toNat).toNat = 48960 := by
      decide
    rw [e, hq]
    rfl
  apply update_proc_fault sdk 300 _ _ _
    ((List.range 44).map (fun j : Nat =>
      guide_line sdk (sdk.grect_center_point (GRect.mk (GPoint.mk 0 0) (GSize.mk 144 168)))
        (hour_angle sdk true (tm.mk 0 13)) (perpendicular sdk (hour_angle sdk true (tm.mk 0 13)))
        221 (Int.tdiv (-221) 2 + (j : Int) * 5)))
  · show guide_lines sdk 300 _ _ _ (diameter sdk _) 5 = _
    rw [hd]
    apply guide_loop_eq
    · decide
    · intro j hj
      have h1 : Int.tdiv (-221) 2 = -110 := by decide
      have h2 : Int.tdiv 221 2 = 110 := by decide
      omega
    · decide
  · exact gen sdk _ _ 287 (tm.mk 0 13) (by decide)

/-- The minute-shape stage changes no render variable, nor `settings`, nor the
storage: at most `filling_path`. -/
theorem minute_shape_frame (P : Platform) (fuel : Nat) (st st1 : AppState) (center : GPoint)
    (fm : Int) (calls : List Call)
    (h : minute_shape P fuel st center fm = Run.ok (st1, calls)) :
    render_state st1 = render_state st ∧ st1.settings = st.settings ∧
      st1.persist = st.persist := by
  unfold minute_shape at h
  cases hb : shape_branch fm with
  | no_draw =>
    rw [hb] at h
    simp only [Run.ok.injEq, Prod.mk.injEq] at h
    rw [← h.1]
    exact ⟨rfl, rfl, rfl⟩
  | circle =>
    rw [hb] at h
    simp only [Run.ok.injEq, Prod.mk.injEq] at h
    rw [← h.1]
    exact ⟨rfl, rfl, rfl⟩
  | ring =>
    rw [hb] at h
    cases hr : ring_calls st center with
    | some ring =>
      simp only [hr, Run.ok.injEq, Prod.mk.injEq] at h
      rw [← h.1]
      exact ⟨rfl, rfl, rfl⟩
    | none =>
      simp only [hr] at h
      cases h
  | polygon =>
    rw [hb] at h
    cases hl : polygon_loop P center st.shape_size (Int.tdiv ( P.TRIG_MAX_ANGLE) fm) fm fuel 0
        (List.replicate 12 none) with
    | ok pts =>
      simp only [polygon_branch, hl, Run.ok.injEq, Prod.mk.injEq] at h
      rw [← h.1]
      exact ⟨rfl, rfl, rfl⟩
    | timeout =>
      simp only [polygon_branch, hl] at h
      cases h
    | fault =>
      simp only [polygon_branch, hl] at h
      cases h
    | undefined =>
      simp only [polygon_branch, hl] at h
      cases h

/-- C16: after `prv_init`, and after every run of `prv_inbox_received_handler`,
each of the six render variables equals the field of the `settings` record;
the record in storage is that same record (after the handler always, after
`prv_init` whenever storage holds one); the tick handler and the render
callback change neither the render variables, nor `settings`, nor storage. -/
theorem render_state_matches_settings (P : Platform) (st : AppState)
    (iter : DictionaryIterator) (t : tm) :
    ((prv_init P st).background_color = (prv_init P st).settings.BackgroundColor ∧
      (prv_init P st).line_color = (prv_init P st).settings.LineColor ∧
      (prv_init P st).swap_hour_min = (prv_init P st).settings.SwapHourMin ∧
      (prv_init P st).outline_shape = (prv_init P st).settings.OutlineShape ∧
      (prv_init P st).line_spacing = (prv_init P st).settings.LineSpacing ∧
      (prv_init P st).shape_size = (prv_init P st).settings.ShapeSize) ∧
    ((prv_inbox_received_handler P st iter).background_color =
        (prv_inbox_received_handler P st iter).settings.BackgroundColor ∧
      (prv_inbox_received_handler P st iter).line_color =
        (prv_inbox_received_handler P st iter).settings.LineColor ∧
      (prv_inbox_received_handler P st iter).swap_hour_min =
        (prv_inbox_received_handler P st iter).settings.SwapHourMin ∧
      (prv_inbox_received_handler P st iter).outline_shape =
        (prv_inbox_received_handler P st iter).settings.OutlineShape ∧
      (prv_inbox_received_handler P st iter).line_spacing =
        (prv_inbox_received_handler P st iter).settings.LineSpacing ∧
      (prv_inbox_received_handler P st iter).shape_size =
        (prv_inbox_received_handler P st iter).settings.ShapeSize) ∧
    (prv_inbox_received_handler P st iter).persist SETTINGS_KEY =
      some (prv_inbox_received_handler P st iter).settings ∧
    ((prv_init P st).persist = st.persist ∧
      ∀ r : ClaySettings, st.persist SETTINGS_KEY = some r → (prv_init P st).settings = r) ∧
    (render_state (tick_handler st t) = render_state st ∧
      (tick_handler st t).settings = st.settings ∧
      (tick_handler st t).persist = st.persist) ∧
    (∀ (fuel : Nat) (bounds : GRect) (st1 : AppState) (calls : List Call),
      bitmap_layer_update_proc P fuel st bounds t = Run.ok (st1, calls) →
      render_state st1 = render_state st ∧ st1.settings = st.settings ∧
        st1.persist = st.persist) := by
  refine ⟨⟨rfl, rfl, rfl, rfl, rfl, rfl⟩, ?_, ?_, ⟨rfl, ?_⟩, ?_, ?_⟩
  · obtain ⟨r, _, _, _, _, _, _, heq⟩ := inbox_received_eq P st iter
    rw [heq]
    exact ⟨rfl, rfl, rfl, rfl, rfl, rfl⟩
  · obtain ⟨r, _, _, _, _, _, _, heq⟩ := inbox_received_eq P st iter
    rw [heq]
    simp
  · intro r hr
    simp only [prv_init, persist_read_data, hr]
  · simp only [tick_handler]
    split_ifs
    · exact ⟨rfl, rfl, rfl⟩
    · exact ⟨rfl, rfl, rfl⟩
  · intro fuel bounds st1 calls h
    unfold bitmap_layer_update_proc at h
    simp only at h
    cases hl : guide_lines P fuel (P.grect_center_point bounds) (hour_angle P st.swap_hour_min t)
        (perpendicular P (hour_angle P st.swap_hour_min t)) (diameter P bounds)
        st.line_spacing with
    | ok lines =>
      rw [hl] at h
      cases hs : minute_shape P fuel st (P.grect_center_point bounds)
          (five_minute st.swap_hour_min t) with
      | ok res =>
        rw [hs] at h
        obtain ⟨st2, shape⟩ := res
        simp only [Run.ok.injEq, Prod.mk.injEq] at h
        rw [← h.1]
        exact minute_shape_frame P fuel st st2 _ _ shape hs
      | timeout =>
        rw [hs] at h
        cases h
      | fault =>
        rw [hs] at h
        cases h
      | undefined =>
        rw [hs] at h
        cases h
    | timeout =>
      rw [hl] at h
      cases h
    | fault =>
      rw [hl] at h
      cases h
    | undefined =>
      rw [hl] at h
      cases h

/-- With a spacing of 0 the guide-line loop never leaves a value of `shift`
below `diameter / 2`: every amount of fuel runs out. -/
theorem guide_loop_stuck (P : Platform) (center : GPoint) (ha pp D : Int) (shift : Int)
    (h : shift < Int.tdiv D 2) :
    ∀ fuel : Nat, guide_loop P center ha pp D 0 fuel shift = Run.timeout := by
  intro fuel
  induction fuel with
  | zero => rfl
  | succ f ih =>
    have e : shift + 0 = shift := Int.add_zero shift
    simp only [guide_loop, h, if_true, e, ih]

/-- C17: for every diagonal `D >= 0`, with `line_spacing >= 1` the guide-line
loop terminates (any fuel above `D` is enough) and draws its chords at shift
values that all satisfy `-(D/2) <= shift < D/2`; with `line_spacing = 0` and
`D >= 2` the loop variable stays at `-(D/2) < D/2` and the loop does not
terminate: it exhausts every amount of fuel. -/
theorem guide_loop_termination (P : Platform) (center : GPoint) (ha pp D ls : Int)
    (hD : 0 ≤ D) :
    (1 ≤ ls → ∃ shifts : List Int,
      (∀ fuel : Nat, D.toNat < fuel →
        guide_lines P fuel center ha pp D ls =
          Run.ok (shifts.map (fun s : Int => guide_line P center ha pp D s))) ∧
      ∀ s ∈ shifts, -(D / 2) ≤ s ∧ s < D / 2) ∧
    (2 ≤ D →
      (Int.tdiv (-D) 2 + 0 = Int.tdiv (-D) 2 ∧ Int.tdiv (-D) 2 < Int.tdiv D 2) ∧
      ∀ fuel : Nat, guide_lines P fuel center ha pp D 0 = Run.timeout) := by
  have hhi : Int.tdiv D 2 = D / 2 := Int.tdiv_eq_ediv hD (by decide)
  have hlo : Int.tdiv (-D) 2 = -(D / 2) := by rw [Int.neg_tdiv, hhi]
  constructor
  · intro hls
    have hW : 0 ≤ 2 * (D / 2) := by omega
    obtain ⟨h1, h2, h3⟩ := ceil_steps (2 * (D / 2)) ls hW hls
    refine ⟨(List.range ⌈((2 * (D / 2) : Int) : ℚ) / (ls : ℚ)⌉.toNat).map
      (fun j : Nat => -(D / 2) + (j : Int) * ls), ?_, ?_⟩
    · intro fuel hf
      unfold guide_lines
      rw [hlo, List.map_map]
      apply guide_loop_eq
      · omega
      · intro j hj
        have := h1 j hj
        rw [hhi]
        omega
      · rw [hhi]
        omega
    · intro s hs
      obtain ⟨j, hj, rfl⟩ := List.mem_map.mp hs
      have hjk := h1 j (List.mem_range.mp hj)
      have hj0 : 0 ≤ (j : Int) * ls := Int.mul_nonneg (Int.ofNat_nonneg j) (by omega)
      constructor <;> omega
  · intro hD2
    have hlt : Int.tdiv (-D) 2 < Int.tdiv D 2 := by
      rw [hlo, hhi]
      omega
    refine ⟨⟨Int.add_zero _, hlt⟩, ?_⟩
    intro fuel
    exact guide_loop_stuck P center ha pp D _ hlt fuel

/-- C17 on the 144 x 168 display (diagonal 221): termination with the default
spacing 5, no termination with spacing 0. -/
theorem guide_loop_termination_witness :
    (0 : Int) ≤ 221 ∧
    (∃ shifts : List Int,
      (∀ fuel : Nat, (221 : Int).toNat < fuel →
        guide_lines sdk fuel (GPoint.mk 72 84) 0 16383 221 5 =
          Run.ok (shifts.map (fun s : Int => guide_line sdk (GPoint.mk 72 84) 0 16383 221 s))) ∧
      ∀ s ∈ shifts, -((221 : Int) / 2) ≤ s ∧ s < (221 : Int) / 2) ∧
    (∀ fuel : Nat, guide_lines sdk fuel (GPoint.mk 72 84) 0 16383 221 0 = Run.timeout) :=
  ⟨by decide,
    (guide_loop_termination sdk (GPoint.mk 72 84) 0 16383 221 5 (by decide)).1 (by decide),
    ((guide_loop_termination sdk (GPoint.mk 72 84) 0 16383 221 5 (by decide)).2 (by decide)).2⟩

end Shapes
